import Mathlib

/-! Layerscape glue drivers: fsl-mc MSI domain and Gen4 PCIe controller.

A shallow embedding of

* `drivers/irqchip/irq-gic-v3-its-fsl-mc-msi.c` (namespace `FslMcMsi`),
* `drivers/pci/controller/mobiveil/pci-layerscape-gen4.c` (namespace `LsPcieG4`), and
* the register enumeration of `drivers/net/ethernet/mscc/ocelot.h` (namespace `Ocelot`),

followed by the properties established about them.

C integers are mathematical integers with explicit reductions where the C
type truncates.  Calls that leave the translated file (the parent MSI
domain, MMIO accessors, sleeping, logging) are recorded in an event list, and
whatever the outside world hands back is a parameter of the model.
-/

namespace FslMcMsi

/-! ## Machine arithmetic used by `its_fsl_mc_msi_prepare` -/

/-- Conversion of a C `int` to `unsigned long` on an LP64 target: the value
modulo `2^64`. -/
def to_ulong (x : Int) : Nat := (x % ((2 : Int) ^ 64)).toNat

/-- Conversion of an `unsigned long` to `int`: the low 32 bits, read as a
two's complement number. -/
def to_int (u : Nat) : Int :=
  if u % 2 ^ 32 < 2 ^ 31 then ((u % 2 ^ 32 : Nat) : Int)
  else ((u % 2 ^ 32 : Nat) : Int) - (2 : Int) ^ 32

/-- Bit scan behind `fls_long`: the 1-based index of the highest set bit among
the lowest `width` bits, `0` when there is none. -/
def fls_aux : Nat → Nat → Nat
  | 0, _ => 0
  | width + 1, x => if x = 0 then 0 else fls_aux width (x / 2) + 1

/-- Modelled from the spec: `fls_long` of `linux/bitops.h` is not among the
sources; on a 64-bit `unsigned long` it is the 1-based index of the most
significant set bit, and `0` for `0`. -/
def fls_long (x : Nat) : Nat := fls_aux 64 (x % 2 ^ 64)

/-- The C expression `x << k` on a 64-bit `unsigned long`.  C defines it for
`k < 64`; beyond that the model follows the arm64 `lsl` instruction, which
takes the count modulo 64 (this driver is only built for arm64). -/
def shl_ulong (x k : Nat) : Nat := (x <<< (k % 64)) % 2 ^ 64

/-- Modelled from the spec: the macro `roundup_pow_of_two` of `linux/log2.h`
is not among the sources.  It rounds its argument up to a power of two in
`unsigned long`; for a run-time argument it is
`1UL << fls_long(n - 1)`, with `n - 1` computed modulo `2^64`. -/
def roundup_pow_of_two (n : Nat) : Nat :=
  shl_ulong 1 (fls_long ((n % 2 ^ 64 + (2 ^ 64 - 1)) % 2 ^ 64))

/-- Modelled from the spec: the macro `max_t` of `linux/kernel.h` is not among
the sources; `max_t(int, x, y)` converts both operands to `int` and yields
`x > y ? x : y`.  The operands arrive here already converted. -/
def max_t_int (x y : Int) : Int := if x > y then x else y

/-- Line 52: `max_t(int, 32, roundup_pow_of_two(nvec))` for an `int nvec`. -/
def prepared_nvec (nvec : Int) : Int :=
  max_t_int 32 (to_int (roundup_pow_of_two (to_ulong nvec)))

/-! ## Data model -/

/-- Constants of kernel headers that are not among the sources. -/
structure khdr where
  /-- The errno `EINVAL` of `errno-base.h`. -/
  EINVAL : Int
  /-- The flag `FSL_MC_IS_DPRC` of `linux/fsl/mc.h`, a bit mask over `flags`. -/
  FSL_MC_IS_DPRC : Nat
  deriving DecidableEq, Repr

/-- The values the kernel headers give these constants. -/
def linux_khdr : khdr := { EINVAL := 22, FSL_MC_IS_DPRC := 1 }

/-- The fields of `struct fsl_mc_device` read by this file. -/
structure fsl_mc_device where
  /-- The field `u16 flags`. -/
  flags : Nat
  /-- The field `u16 icid`. -/
  icid : Nat
  deriving DecidableEq, Repr

/-- A `struct device` as this file sees it. -/
structure device where
  /-- The test `dev_is_fsl_mc(dev)`, that is `dev->bus == &fsl_mc_bus_type`. -/
  dev_is_fsl_mc : Bool
  /-- The result of `to_fsl_mc_device(dev)`: the `fsl_mc_device` that embeds `dev`. -/
  mc : fsl_mc_device
  deriving DecidableEq, Repr

/-- The generic `msi_alloc_info_t`: a descriptor, a hardware IRQ number and
two scratchpad words. -/
structure msi_alloc_info_t where
  desc : Nat
  hwirq : Nat
  /-- The word `scratchpad[0].ul`. -/
  scratchpad0 : Nat
  /-- The word `scratchpad[1].ul`. -/
  scratchpad1 : Nat
  deriving DecidableEq, Repr

/-- The MSI domain handed to `msi_prepare`.  The only thing the function uses
of it is `msi_get_domain_info(msi_domain->parent)->ops->msi_prepare`, a
callback that returns an `int` and may rewrite `*info`. -/
structure irq_domain where
  parent_msi_prepare : device → Int → msi_alloc_info_t → Int × msi_alloc_info_t

/-- One invocation of the parent's `msi_prepare`, with the arguments as they
were at the time of the call. -/
structure ParentCall where
  dev : device
  nvec : Int
  info : msi_alloc_info_t
  deriving DecidableEq, Repr

/-- What a run of `its_fsl_mc_msi_prepare` leaves behind. -/
structure PrepareResult where
  /-- The returned `int`. -/
  ret : Int
  /-- The contents of `*info` on return. -/
  info : msi_alloc_info_t
  /-- Calls made to the parent's `msi_prepare`, in order. -/
  parent_calls : List ParentCall
  deriving DecidableEq, Repr

/-- The function `its_fsl_mc_msi_prepare` (lines 28-54). -/
def its_fsl_mc_msi_prepare (K : khdr) (msi_domain : irq_domain) (dev : device)
    (nvec : Int) (info : msi_alloc_info_t) : PrepareResult :=
  if !dev.dev_is_fsl_mc then
    { ret := -K.EINVAL, info := info, parent_calls := [] }
  else
    let mc_bus_dev := dev.mc
    if mc_bus_dev.flags &&& K.FSL_MC_IS_DPRC = 0 then
      { ret := -K.EINVAL, info := info, parent_calls := [] }
    else
      let info1 := { info with scratchpad0 := mc_bus_dev.icid }
      let nvec1 := prepared_nvec nvec
      let r := msi_domain.parent_msi_prepare dev nvec1 info1
      { ret := r.1, info := r.2, parent_calls := [{ dev := dev, nvec := nvec1, info := info1 }] }

/-! ### Concrete objects used to evaluate the model -/

/-- A DPRC device with ICID 5. -/
def dprc_dev : device := { dev_is_fsl_mc := true, mc := { flags := 1, icid := 5 } }

/-- An fsl-mc device that is not a DPRC. -/
def plain_mc_dev : device := { dev_is_fsl_mc := true, mc := { flags := 0, icid := 9 } }

/-- A zeroed allocation info. -/
def info0 : msi_alloc_info_t := { desc := 0, hwirq := 0, scratchpad0 := 0, scratchpad1 := 0 }

/-- A domain whose parent accepts every request. -/
def dom_ok : irq_domain := { parent_msi_prepare := fun _ _ i => (0, i) }

/-- A domain whose parent rejects every request with `-EINVAL`. -/
def dom_einval : irq_domain := { parent_msi_prepare := fun _ _ i => (-22, i) }

end FslMcMsi

namespace LsPcieG4

/-! ## Register map of `pci-layerscape-gen4.c` (lines 27-43) -/

def REV_1_0 : Nat := 0x10
def PCIE_LUT_OFF : Nat := 0x80000
def PCIE_LUT_GCR : Nat := 0x28
def PCIE_LUT_GCR_RRE : Nat := 0
def PCIE_PF_OFF : Nat := 0xc0000
def PCIE_PF_INT_STAT : Nat := 0x18
def PF_INT_STAT_PABRST : Nat := 31
def PCIE_PF_DBG : Nat := 0x7fc
def PF_DBG_LTSSM_MASK : Nat := 0x3f
def PF_DBG_WE : Nat := 31
def PF_DBG_PABR : Nat := 27
def LS_PCIE_G4_LTSSM_L0 : Nat := 0x2d

/-- Constants of `pcie-mobiveil.h` and `pci_regs.h`, which are not among the
sources.  The driver is modelled for every value of them. -/
structure mobiveil_hdr where
  /-- Config-space offset of the vendor ID, compared with the `int where`. -/
  PCI_VENDOR_ID : Int
  /-- Config-space offset of the revision ID. -/
  PCI_REVISION_ID : Nat
  /-- Offset of the ACK latency / replay timeout register. -/
  GPEX_ACK_REPLAY_TO : Nat
  ACK_LAT_TO_VAL_MASK : Nat
  ACK_LAT_TO_VAL_SHIFT : Nat
  /-- Offset of the bridge activity status register. -/
  PAB_ACTIVITY_STAT : Nat
  /-- Offset of the AMBA miscellaneous interrupt status register. -/
  PAB_INTP_AMBA_MISC_STAT : Nat
  /-- Bit mask of the reset interrupt in that status register. -/
  PAB_INTP_RESET : Nat
  deriving DecidableEq, Repr

/-- The values these constants have in the kernel headers. -/
def linux_hdr : mobiveil_hdr :=
  { PCI_VENDOR_ID := 0x00, PCI_REVISION_ID := 0x08, GPEX_ACK_REPLAY_TO := 0x438,
    ACK_LAT_TO_VAL_MASK := 0x1fff, ACK_LAT_TO_VAL_SHIFT := 0, PAB_ACTIVITY_STAT := 0x81c,
    PAB_INTP_AMBA_MISC_STAT := 0xb1c, PAB_INTP_RESET := 2 }

/-! ## The outside world -/

/-- Messages the driver logs through `dev_err`. -/
inductive LogMsg where
  /-- The text "poll PABRST&PABACT timeout". -/
  | poll_pabrst_pabact_timeout
  /-- The text "PCIe link trainning timeout". -/
  | link_training_timeout
  /-- The text "Can't get 'intr' irq.". -/
  | cant_get_intr_irq
  /-- The text "Can't register PCIe IRQ.". -/
  | cant_register_pcie_irq
  /-- The text "failed to find msi-parent". -/
  | failed_to_find_msi_parent
  /-- The text "fail to probe!". -/
  | fail_to_probe
  deriving DecidableEq, Repr

/-- What the driver does to its surroundings, in program order. -/
inductive Event where
  /-- A call `ioread32(csr_axi_slave_base + addr)` that returned `val`. -/
  | ioread32 (addr val : Nat)
  /-- A call `iowrite32(val, csr_axi_slave_base + addr)`. -/
  | iowrite32 (val addr : Nat)
  /-- A call `csr_readb(pci, off)` that returned `val`. -/
  | csr_readb (off val : Nat)
  /-- A call `csr_readl(pci, off)` that returned `val`. -/
  | csr_readl (off val : Nat)
  /-- A call `csr_writel(pci, val, off)`. -/
  | csr_writel (val off : Nat)
  /-- A call `csr_readw(pci, off)` that returned `val`. -/
  | csr_readw (off val : Nat)
  /-- A call `csr_writew(pci, val, off)`. -/
  | csr_writew (val off : Nat)
  /-- A call `usleep_range(min, max)`. -/
  | usleep_range (min max : Nat)
  /-- A call `dev_err(&mv_pci->pdev->dev, msg)`. -/
  | dev_err (msg : LogMsg)
  /-- A call `schedule_delayed_work(&pcie->dwork, msecs_to_jiffies(msecs))`. -/
  | schedule_delayed_work (msecs : Nat)
  /-- A call `pci_generic_config_read(bus, devfn, where, size, val)`. -/
  | pci_generic_config_read (devfn : Nat) (where_ size : Int)
  deriving DecidableEq, Repr

/-- Whether an event stores to a device register. -/
def Event.is_write : Event → Bool
  | .iowrite32 _ _ => true
  | .csr_writel _ _ => true
  | .csr_writew _ _ => true
  | _ => false

/-- The driver object `struct ls_pcie_g4` together with its surroundings.
The hardware is an oracle: the `k`-th register read of a run (counted from 0
over all registers) returns `hw k`, cut to the width of the access. -/
structure State where
  /-- The field `u8 rev` of `struct ls_pcie_g4`. -/
  rev : Nat
  /-- The field `int irq` of `struct ls_pcie_g4`. -/
  irq : Int
  /-- Answers of the hardware to the successive register reads. -/
  hw : Nat → Nat
  /-- Number of register reads performed so far. -/
  nread : Nat
  /-- Events so far, oldest first. -/
  trace : List Event

/-- The value the next register read of the given width returns. -/
def State.next (s : State) (width : Nat) : Nat := s.hw s.nread % 2 ^ width

/-- Append an event to the log. -/
def State.emit (s : State) (e : Event) : State := { s with trace := s.trace ++ [e] }

/-- Answer one register read of the given width and log it. -/
def State.read (s : State) (width : Nat) (ev : Nat → Event) : Nat × State :=
  (s.next width, { s with nread := s.nread + 1, trace := s.trace ++ [ev (s.next width)] })

/-- The kernel's `ioread32` at `csr_axi_slave_base + addr`. -/
def ioread32 (addr : Nat) (s : State) : Nat × State := s.read 32 (Event.ioread32 addr)

/-- The kernel's `iowrite32` at `csr_axi_slave_base + addr`; `val` is a `u32`. -/
def iowrite32 (val addr : Nat) (s : State) : State := s.emit (.iowrite32 (val % 2 ^ 32) addr)

/-- Modelled from the spec: `csr_readb` of `pcie-mobiveil.h` is not among the
sources; it is a one-byte read of the bridge register at `off`. -/
def csr_readb (off : Nat) (s : State) : Nat × State := s.read 8 (Event.csr_readb off)

/-- Modelled from the spec: `csr_readl` of `pcie-mobiveil.h` is not among the
sources; it is a 32-bit read of the bridge register at `off`. -/
def csr_readl (off : Nat) (s : State) : Nat × State := s.read 32 (Event.csr_readl off)

/-- Modelled from the spec: `csr_writel` of `pcie-mobiveil.h` is not among the
sources; it is a 32-bit write of `val` to the bridge register at `off`. -/
def csr_writel (val off : Nat) (s : State) : State := s.emit (.csr_writel (val % 2 ^ 32) off)

/-- The kernel's `usleep_range`. -/
def usleep_range (min max : Nat) (s : State) : State := s.emit (.usleep_range min max)

/-- The kernel's `dev_err`. -/
def dev_err (msg : LogMsg) (s : State) : State := s.emit (.dev_err msg)

/-- The kernel's `schedule_delayed_work` on `pcie->dwork`, with the delay
`msecs_to_jiffies(msecs)`. -/
def schedule_delayed_work (msecs : Nat) (s : State) : State :=
  s.emit (.schedule_delayed_work msecs)

/-- Result of a `pci_generic_config_read`: given the events so far and the
arguments `devfn`, `where`, `size` and the previous `*val`, the return code
and the new `*val`. -/
abbrev ConfigOracle := List Event → Nat → Int → Int → Nat → Int × Nat

/-- Modelled from the spec: `pci_generic_config_read` of `drivers/pci/access.c`
is not among the sources; it performs the raw config read and hands back a
return code and a value, here supplied by `gen`. -/
def pci_generic_config_read (gen : ConfigOracle) (devfn : Nat) (where_ size : Int)
    (val : Nat) (s : State) : (Int × Nat) × State :=
  (gen s.trace devfn where_ size val, s.emit (.pci_generic_config_read devfn where_ size))

/-- Bitwise complement within a `u32`. -/
def not32 (x : Nat) : Nat := (2 ^ 32 - 1) ^^^ (x % 2 ^ 32)

/-! ## The driver -/

/-- Lines 124-128. -/
def ls_pcie_g4_lut_writel (off val : Nat) (s : State) : State :=
  iowrite32 val (PCIE_LUT_OFF + off) s

/-- Lines 130-133. -/
def ls_pcie_g4_pf_readl (off : Nat) (s : State) : Nat × State :=
  ioread32 (PCIE_PF_OFF + off) s

/-- Lines 135-139. -/
def ls_pcie_g4_pf_writel (off val : Nat) (s : State) : State :=
  iowrite32 val (PCIE_PF_OFF + off) s

/-- Lines 152-162: set the ACK latency timeout field to 4. -/
def workaround_A011451 (K : mobiveil_hdr) (s : State) : State :=
  let r := csr_readl K.GPEX_ACK_REPLAY_TO s
  let val := r.1
  let val := val &&& not32 (K.ACK_LAT_TO_VAL_MASK <<< K.ACK_LAT_TO_VAL_SHIFT)
  let val := val ||| ((4 <<< K.ACK_LAT_TO_VAL_SHIFT) % 2 ^ 32)
  csr_writel val K.GPEX_ACK_REPLAY_TO r.2

/-- Lines 164-174. -/
def ls_pcie_g4_host_init (K : mobiveil_hdr) (s : State) : Int × State :=
  let r := csr_readb K.PCI_REVISION_ID s
  let s1 := { r.2 with rev := r.1 % 2 ^ 8 }
  let s2 := if s1.rev = REV_1_0 then workaround_A011451 K s1 else s1
  (0, s2)

/-- Lines 176-188. -/
def ls_pcie_g4_link_up (s : State) : Int × State :=
  let r := ls_pcie_g4_pf_readl PCIE_PF_DBG s
  let state := r.1
  let state := state &&& PF_DBG_LTSSM_MASK
  if state = LS_PCIE_G4_LTSSM_L0 then (1, r.2) else (0, r.2)

/-- Lines 197-201, the loop
`do { ... } while (((val & 1 << PF_INT_STAT_PABRST) == 0 || act_stat) && to--)`
entered with the given non-negative `to` (here `to_`); yields the final `to`. -/
def reinit_poll (K : mobiveil_hdr) : Nat → State → Int × State
  | to_, s =>
    let s1 := usleep_range 10 15 s
    let r1 := ls_pcie_g4_pf_readl PCIE_PF_INT_STAT s1
    let val := r1.1
    let r2 := csr_readl K.PAB_ACTIVITY_STAT r1.2
    let act_stat := r2.1
    if val &&& (1 <<< PF_INT_STAT_PABRST) = 0 ∨ act_stat ≠ 0 then
      match to_ with
      | 0 => (-1, r2.2)
      | to1 + 1 => reinit_poll K to1 r2.2
    else ((to_ : Int), r2.2)

/-- Lines 223-224, the loop
`while (!ls_pcie_g4_link_up(mv_pci) && to--) usleep_range(200, 250);`
entered with the given non-negative `to` (here `to_`); yields the final `to`. -/
def link_training_poll : Nat → State → Int × State
  | to_, s =>
    let r := ls_pcie_g4_link_up s
    if r.1 = 0 then
      match to_ with
      | 0 => (-1, r.2)
      | to1 + 1 => link_training_poll to1 (usleep_range 200 250 r.2)
    else ((to_ : Int), r.2)

/-- Lines 207-218: clear the PEX_RESET bit by three read-modify-write rounds
on `PCIE_PF_DBG`. -/
def clear_pex_reset (s : State) : State :=
  let r := ls_pcie_g4_pf_readl PCIE_PF_DBG s
  let val := r.1 ||| (1 <<< PF_DBG_WE)
  let s := ls_pcie_g4_pf_writel PCIE_PF_DBG val r.2
  let r := ls_pcie_g4_pf_readl PCIE_PF_DBG s
  let val := r.1 ||| (1 <<< PF_DBG_PABR)
  let s := ls_pcie_g4_pf_writel PCIE_PF_DBG val r.2
  let r := ls_pcie_g4_pf_readl PCIE_PF_DBG s
  let val := r.1 &&& not32 (1 <<< PF_DBG_WE)
  ls_pcie_g4_pf_writel PCIE_PF_DBG val r.2

/-- Lines 207-226: what `ls_pcie_g4_reinit_hw` does once the handshake poll
has succeeded.  `mobiveil_host_init` (of `pcie-mobiveil-host.c`, not among the
sources) is a parameter. -/
def reinit_hw_proceed (mobiveil_host_init : Bool → State → State) (s : State) : State :=
  let s := clear_pex_reset s
  let s := mobiveil_host_init true s
  let r := link_training_poll 100 s
  if r.1 < 0 then dev_err .link_training_timeout r.2 else r.2

/-- Lines 190-227. -/
def ls_pcie_g4_reinit_hw (K : mobiveil_hdr) (mobiveil_host_init : Bool → State → State)
    (s : State) : State :=
  let r := reinit_poll K 100 s
  if r.1 < 0 then dev_err .poll_pabrst_pabact_timeout r.2
  else reinit_hw_proceed mobiveil_host_init r.2

/-- The C enumeration `irqreturn_t`, as far as the handler uses it. -/
inductive irqreturn_t where
  | IRQ_NONE
  | IRQ_HANDLED
  deriving DecidableEq, Repr

/-- Lines 229-245. -/
def ls_pcie_g4_handler (K : mobiveil_hdr) (s : State) : irqreturn_t × State :=
  let r := csr_readl K.PAB_INTP_AMBA_MISC_STAT s
  let val := r.1
  if val = 0 then (.IRQ_NONE, r.2)
  else
    let s1 := if val &&& K.PAB_INTP_RESET ≠ 0 then schedule_delayed_work 1 r.2 else r.2
    let s2 := csr_writel val K.PAB_INTP_AMBA_MISC_STAT s1
    (.IRQ_HANDLED, s2)

/-- Lines 288-306; the result is the return code and `*val`. -/
def ls_pcie_g4_read_other_conf (K : mobiveil_hdr) (gen : ConfigOracle) (devfn : Nat)
    (where_ size : Int) (val : Nat) (s : State) : (Int × Nat) × State :=
  let s1 := if s.rev = REV_1_0 ∧ where_ = K.PCI_VENDOR_ID then
      ls_pcie_g4_lut_writel PCIE_LUT_GCR (0 <<< PCIE_LUT_GCR_RRE) s
    else s
  let r := pci_generic_config_read gen devfn where_ size val s1
  let s2 := r.2
  let s3 := if s2.rev = REV_1_0 ∧ where_ = K.PCI_VENDOR_ID then
      ls_pcie_g4_lut_writel PCIE_LUT_GCR (1 <<< PCIE_LUT_GCR_RRE) s2
    else s2
  (r.1, s3)

/-! ## The driver, continued: reset work, interrupt setup and probe -/

/-- Further constants of `pcie-mobiveil.h`, `pci_regs.h` and `errno-base.h`,
which are not among the sources.  The driver is modelled for every value of
them. -/
structure pci_regs_hdr where
  /-- Config-space offset of the header type. -/
  PCI_HEADER_TYPE : Nat
  /-- Header type value of a PCI-to-PCI bridge. -/
  PCI_HEADER_TYPE_BRIDGE : Nat
  /-- Config-space offset of the bridge control register. -/
  PCI_BRIDGE_CONTROL : Nat
  /-- Bit mask of the secondary bus reset in the bridge control register. -/
  PCI_BRIDGE_CTL_BUS_RESET : Nat
  /-- Offset of the AMBA miscellaneous interrupt enable register. -/
  PAB_INTP_AMBA_MISC_ENB : Nat
  PAB_INTP_INTX_MASK : Nat
  PAB_INTP_MSI : Nat
  PAB_INTP_PCIE_UE : Nat
  PAB_INTP_IE_PMREDI : Nat
  PAB_INTP_IE_EC : Nat
  EINVAL : Int
  ENOMEM : Int
  ENODEV : Int
  deriving DecidableEq, Repr

/-- Sample values of these constants, following the kernel headers. -/
def linux_regs : pci_regs_hdr :=
  { PCI_HEADER_TYPE := 0x0e, PCI_HEADER_TYPE_BRIDGE := 1, PCI_BRIDGE_CONTROL := 0x3e,
    PCI_BRIDGE_CTL_BUS_RESET := 0x40, PAB_INTP_AMBA_MISC_ENB := 0xb0c,
    PAB_INTP_INTX_MASK := 0x1e0, PAB_INTP_MSI := 0x8, PAB_INTP_PCIE_UE := 0x200,
    PAB_INTP_IE_PMREDI := 0x20000000, PAB_INTP_IE_EC := 0x40000000,
    EINVAL := 22, ENOMEM := 12, ENODEV := 19 }

/-- Modelled from the spec: `csr_readw` of `pcie-mobiveil.h` is not among the
sources; it is a 16-bit read of the bridge register at `off`. -/
def csr_readw (off : Nat) (s : State) : Nat × State := s.read 16 (Event.csr_readw off)

/-- Modelled from the spec: `csr_writew` of `pcie-mobiveil.h` is not among the
sources; it is a 16-bit write of `val` to the bridge register at `off`. -/
def csr_writew (val off : Nat) (s : State) : State := s.emit (.csr_writew (val % 2 ^ 16) off)

/-- Bitwise complement within a `u16`. -/
def not16 (x : Nat) : Nat := (2 ^ 16 - 1) ^^^ (x % 2 ^ 16)

/-- Lines 141-150. -/
def ls_pcie_g4_is_bridge (R : pci_regs_hdr) (s : State) : Bool × State :=
  let r := csr_readb R.PCI_HEADER_TYPE s
  let header_type := r.1
  let header_type := header_type &&& 0x7f
  (decide (header_type = R.PCI_HEADER_TYPE_BRIDGE), r.2)

/-- Lines 247-272.  `platform_get_irq_byname` is the value that call returns,
`devm_request_irq` the return value of that call for the given IRQ number. -/
def ls_pcie_g4_interrupt_init (K : mobiveil_hdr) (R : pci_regs_hdr)
    (platform_get_irq_byname : Int) (devm_request_irq : Int → Int) (s : State) :
    Int × State :=
  let s1 := { s with irq := platform_get_irq_byname }
  if s1.irq < 0 then (s1.irq, dev_err .cant_get_intr_irq s1)
  else
    let ret := devm_request_irq s1.irq
    if ret ≠ 0 then (ret, dev_err .cant_register_pcie_irq s1)
    else
      let val := R.PAB_INTP_INTX_MASK ||| R.PAB_INTP_MSI ||| K.PAB_INTP_RESET |||
        R.PAB_INTP_PCIE_UE ||| R.PAB_INTP_IE_PMREDI ||| R.PAB_INTP_IE_EC
      (0, csr_writel val R.PAB_INTP_AMBA_MISC_ENB s1)

/-- Lines 274-286, the delayed work: clear the secondary bus reset bit, then
`ls_pcie_g4_reinit_hw`. -/
def ls_pcie_g4_reset (K : mobiveil_hdr) (R : pci_regs_hdr)
    (mobiveil_host_init : Bool → State → State) (s : State) : State :=
  let r := csr_readw R.PCI_BRIDGE_CONTROL s
  let ctrl := r.1
  let ctrl := ctrl &&& not16 R.PCI_BRIDGE_CTL_BUS_RESET
  let s1 := csr_writew ctrl R.PCI_BRIDGE_CONTROL r.2
  ls_pcie_g4_reinit_hw K mobiveil_host_init s1

/-- What `ls_pcie_g4_probe` gets from the kernel: whether
`of_parse_phandle(np, "msi-parent", 0)` finds a node, whether the two
`devm_kzalloc` calls succeed, and `mobiveil_pcie_host_probe` (of
`pcie-mobiveil-host.c`, not among the sources) as a function yielding its
return code. -/
structure ProbeEnv where
  msi_parent_found : Bool
  pcie_alloc_ok : Bool
  mv_pci_alloc_ok : Bool
  mobiveil_pcie_host_probe : State → Int × State

/-- Lines 318-358.  The driver object comes zeroed from `devm_kzalloc`. -/
def ls_pcie_g4_probe (R : pci_regs_hdr) (E : ProbeEnv) (s : State) : Int × State :=
  if !E.msi_parent_found then
    (-R.EINVAL, dev_err .failed_to_find_msi_parent s)
  else if !E.pcie_alloc_ok then (-R.ENOMEM, s)
  else if !E.mv_pci_alloc_ok then (-R.ENOMEM, s)
  else
    let s1 := { s with rev := 0, irq := 0 }
    let r := E.mobiveil_pcie_host_probe s1
    let ret := r.1
    if ret ≠ 0 then (ret, dev_err .fail_to_probe r.2)
    else
      let b := ls_pcie_g4_is_bridge R r.2
      if !b.1 then (-R.ENODEV, b.2)
      else (0, b.2)

/-! ### Vocabulary of the statements about the handshake poll -/

/-- The events of one round of the handshake poll whose two reads are the
`n`-th and `n+1`-th register reads of the run: the delay, the read of
`PCIE_PF_INT_STAT`, the read of `PAB_ACTIVITY_STAT`. -/
def poll_events (K : mobiveil_hdr) (hw : Nat → Nat) (n : Nat) : List Event :=
  [.usleep_range 10 15, .ioread32 (PCIE_PF_OFF + PCIE_PF_INT_STAT) (hw n % 2 ^ 32),
    .csr_readl K.PAB_ACTIVITY_STAT (hw (n + 1) % 2 ^ 32)]

/-- The events of `count` consecutive rounds of the handshake poll, the first
of which reads at index `n`. -/
def poll_trace (K : mobiveil_hdr) (hw : Nat → Nat) : Nat → Nat → List Event
  | _, 0 => []
  | n, count + 1 => poll_events K hw n ++ poll_trace K hw (n + 2) count

/-- The round of the handshake poll that reads at index `n` fails: the status
read has bit 31 (PABRST) clear, or the activity read is not zero. -/
def poll_fails (hw : Nat → Nat) (n : Nat) : Prop :=
  (hw n % 2 ^ 32) &&& (1 <<< PF_INT_STAT_PABRST) = 0 ∨ hw (n + 1) % 2 ^ 32 ≠ 0

instance (hw : Nat → Nat) (n : Nat) : Decidable (poll_fails hw n) :=
  inferInstanceAs
    (Decidable ((hw n % 2 ^ 32) &&& (1 <<< PF_INT_STAT_PABRST) = 0 ∨ hw (n + 1) % 2 ^ 32 ≠ 0))

/-! ### Concrete objects used to evaluate the model -/

/-- A fresh driver object over the given hardware answers. -/
def boot (hw : Nat → Nat) : State := { rev := 0, irq := 0, hw := hw, nread := 0, trace := [] }

/-- Hardware on which every register reads 0, so PABRST never shows. -/
def hw_stuck : Nat → Nat := fun _ => 0

/-- A `mobiveil_host_init` without visible effect. -/
def host_init_quiet : Bool → State → State := fun _ s => s

/-- A config read that always succeeds with value `0x8d801957`. -/
def gen_ok : ConfigOracle := fun _ _ _ _ _ => (0, 0x8d801957)

/-- A kernel in which every resource probe asks for is there and
`mobiveil_pcie_host_probe` succeeds without visible effect. -/
def env_ok : ProbeEnv :=
  { msi_parent_found := true, pcie_alloc_ok := true, mv_pci_alloc_ok := true,
    mobiveil_pcie_host_probe := fun s => (0, s) }

/-- Hardware whose header type register reads 0 (a type 0 header, not a bridge). -/
def hw_endpoint : Nat → Nat := fun _ => 0

/-- Hardware whose header type register reads 1 (a bridge). -/
def hw_bridge : Nat → Nat := fun _ => 1

/-- A `mobiveil_host_init` that invokes the `host_init` callback of
`ls_pcie_g4_pab_ops` (lines 313-316), that is `ls_pcie_g4_host_init`. -/
def host_init_callback (K : mobiveil_hdr) : Bool → State → State :=
  fun _ s => (ls_pcie_g4_host_init K s).2

/-- Hardware for one run of host init followed by one reset: the revision
register reads `0x10` first (read 0) and `0x20` when read again (read 8); the
handshake status is ready at once (reads 3 and 4); every other read gives
`0x2d`. -/
def hw_rev_changes : Nat → Nat := fun k =>
  if k = 0 then 0x10 else if k = 3 then 0x80000000 else if k = 4 then 0
  else if k = 8 then 0x20 else 0x2d

end LsPcieG4

namespace FslMcMsi

/-! ## Device-tree initialisation (`its_fsl_mc_of_msi_init`) -/

/-- The parent domain that `irq_find_matching_host(np, DOMAIN_BUS_NEXUS)` finds
for a node. -/
structure nexus_domain where
  /-- Identity of the domain. -/
  id : Nat
  /-- Whether `msi_get_domain_info(parent)` is non-NULL. -/
  msi_domain_info : Bool
  deriving DecidableEq, Repr

/-- A device-tree node that matches `its_device_id` ("arm,gic-v3-its"), as the
loop sees it. -/
structure device_node where
  /-- Identity of the node. -/
  id : Nat
  /-- The result of `of_device_is_available(np)`. -/
  available : Bool
  /-- The result of `of_property_read_bool(np, "msi-controller")`. -/
  msi_controller : Bool
  /-- The result of `irq_find_matching_host(np, DOMAIN_BUS_NEXUS)`, `none` for NULL. -/
  parent : Option nexus_domain
  deriving DecidableEq, Repr

/-- What the initialisation does to its surroundings, in program order. -/
inductive InitEvent where
  /-- The message "unable to locate ITS domain" for a node. -/
  | pr_err_unable_to_locate (np : device_node)
  /-- A call `fsl_mc_msi_create_irq_domain(of_node_to_fwnode(np),
  &its_fsl_mc_msi_domain_info, parent)`. -/
  | fsl_mc_msi_create_irq_domain (np : device_node) (parent : nexus_domain)
  /-- The message "unable to create fsl-mc domain" for a node. -/
  | pr_err_unable_to_create (np : device_node)
  /-- The message "fsl-mc MSI: ... domain created" for a node. -/
  | pr_info_domain_created (np : device_node)
  deriving DecidableEq, Repr

/-- Outcome of a `fsl_mc_msi_create_irq_domain` call (of the fsl-mc bus driver,
not among the sources): given the events so far, the node and the parent,
whether a domain comes back. -/
abbrev CreateOracle := List InitEvent → device_node → nexus_domain → Bool

/-- Lines 136-159, the loop body applied to the nodes that
`of_find_matching_node` yields, in order; `log` collects the events. -/
def its_fsl_mc_of_msi_init_loop (create : CreateOracle) :
    List device_node → List InitEvent → List InitEvent
  | [], log => log
  | np :: rest, log =>
    if !np.available then its_fsl_mc_of_msi_init_loop create rest log
    else if !np.msi_controller then its_fsl_mc_of_msi_init_loop create rest log
    else
      match np.parent with
      | none =>
        its_fsl_mc_of_msi_init_loop create rest (log ++ [.pr_err_unable_to_locate np])
      | some parent =>
        if !parent.msi_domain_info then
          its_fsl_mc_of_msi_init_loop create rest (log ++ [.pr_err_unable_to_locate np])
        else
          let log1 := log ++ [.fsl_mc_msi_create_irq_domain np parent]
          if !create log np parent then
            its_fsl_mc_of_msi_init_loop create rest (log1 ++ [.pr_err_unable_to_create np])
          else
            its_fsl_mc_of_msi_init_loop create rest (log1 ++ [.pr_info_domain_created np])

/-- Lines 130-161: the return value and the events. -/
def its_fsl_mc_of_msi_init (create : CreateOracle) (nodes : List device_node) :
    Int × List InitEvent :=
  (0, its_fsl_mc_of_msi_init_loop create nodes [])

/-! ### Vocabulary of the statements about the initialisation -/

/-- A node for which the loop reaches the creation call: available, marked
`msi-controller`, with a parent domain that has MSI domain info. -/
def eligible (np : device_node) : Bool :=
  np.available && np.msi_controller &&
    (match np.parent with
     | some parent => parent.msi_domain_info
     | none => false)

/-- The nodes for which a domain creation was attempted, in order. -/
def creation_attempts : List InitEvent → List device_node
  | [] => []
  | .fsl_mc_msi_create_irq_domain np _ :: rest => np :: creation_attempts rest
  | _ :: rest => creation_attempts rest

/-! ### Concrete objects used to evaluate the model -/

/-- An eligible node. -/
def its_node (id : Nat) : device_node :=
  { id := id, available := true, msi_controller := true,
    parent := some { id := id, msi_domain_info := true } }

/-- A node whose parent domain is absent. -/
def orphan_node (id : Nat) : device_node :=
  { id := id, available := true, msi_controller := true, parent := none }

/-- A kernel in which every domain creation fails. -/
def create_fails : CreateOracle := fun _ _ _ => false

end FslMcMsi

namespace Ocelot

/-- Line 69. -/
def TARGET_OFFSET : Nat := 24

/-- Line 70, `GENMASK(TARGET_OFFSET - 1, 0)`: the bits 0 to `TARGET_OFFSET - 1`
set (`GENMASK` of `linux/bits.h` is not among the sources). -/
def REG_MASK : Nat := 2 ^ TARGET_OFFSET - 1

/-- Lines 76-87, `enum ocelot_target`. -/
inductive ocelot_target where
  | ANA
  | PTP
  | QS
  | QSYS
  | REW
  | SYS
  | S2
  | GCB
  | HSIO
  | TARGET_MAX
  deriving DecidableEq, Repr

open ocelot_target

/-- The values of `enum ocelot_target`: `ANA = 1`, each following enumerator
one more than the one before. -/
def ocelot_target.val : ocelot_target → Nat
  | ANA => 1
  | PTP => 2
  | QS => 3
  | QSYS => 4
  | REW => 5
  | SYS => 6
  | S2 => 7
  | GCB => 8
  | HSIO => 9
  | TARGET_MAX => 10

/-- The C rule for enumerator values: an enumerator with the initializer
`T << TARGET_OFFSET` has that value, one without has the value of the previous
enumerator plus one (`next`, 0 for the first). -/
def enum_values : Nat → List (String × Option ocelot_target) → List (String × Nat)
  | _, [] => []
  | next, (name, init) :: rest =>
    let v := match init with
      | some t => t.val <<< TARGET_OFFSET
      | none => next
    (name, v) :: enum_values (v + 1) rest

/-- Lines 89-450, the enumerators of `enum ocelot_reg` in source order, each
with the target of its initializer `T << TARGET_OFFSET` when it has one. -/
def ocelot_reg_decls : List (String × Option ocelot_target) :=
  [("ANA_ADVLEARN", some ANA), ("ANA_VLANMASK", none), ("ANA_PORT_B_DOMAIN", none),
   ("ANA_ANAGEFIL", none), ("ANA_ANEVENTS", none), ("ANA_STORMLIMIT_BURST", none),
   ("ANA_STORMLIMIT_CFG", none), ("ANA_ISOLATED_PORTS", none), ("ANA_COMMUNITY_PORTS", none),
   ("ANA_AUTOAGE", none), ("ANA_MACTOPTIONS", none), ("ANA_LEARNDISC", none),
   ("ANA_AGENCTRL", none), ("ANA_MIRRORPORTS", none), ("ANA_EMIRRORPORTS", none),
   ("ANA_FLOODING", none), ("ANA_FLOODING_IPMC", none), ("ANA_SFLOW_CFG", none),
   ("ANA_PORT_MODE", none), ("ANA_CUT_THRU_CFG", none), ("ANA_PGID_PGID", none),
   ("ANA_TABLES_ANMOVED", none), ("ANA_TABLES_MACHDATA", none), ("ANA_TABLES_MACLDATA", none),
   ("ANA_TABLES_STREAMDATA", none), ("ANA_TABLES_MACACCESS", none),
   ("ANA_TABLES_MACTINDX", none), ("ANA_TABLES_VLANACCESS", none), ("ANA_TABLES_VLANTIDX", none),
   ("ANA_TABLES_ISDXACCESS", none), ("ANA_TABLES_ISDXTIDX", none), ("ANA_TABLES_ENTRYLIM", none),
   ("ANA_TABLES_PTP_ID_HIGH", none), ("ANA_TABLES_PTP_ID_LOW", none),
   ("ANA_TABLES_STREAMACCESS", none), ("ANA_TABLES_STREAMTIDX", none),
   ("ANA_TABLES_SEQ_HISTORY", none), ("ANA_TABLES_SEQ_MASK", none),
   ("ANA_TABLES_SFID_MASK", none), ("ANA_TABLES_SFIDACCESS", none),
   ("ANA_TABLES_SFIDTIDX", none), ("ANA_MSTI_STATE", none), ("ANA_OAM_UPM_LM_CNT", none),
   ("ANA_SG_ACCESS_CTRL", none), ("ANA_SG_CONFIG_REG_1", none), ("ANA_SG_CONFIG_REG_2", none),
   ("ANA_SG_CONFIG_REG_3", none), ("ANA_SG_CONFIG_REG_4", none), ("ANA_SG_CONFIG_REG_5", none),
   ("ANA_SG_GCL_GS_CONFIG", none), ("ANA_SG_GCL_TI_CONFIG", none), ("ANA_SG_STATUS_REG_1", none),
   ("ANA_SG_STATUS_REG_2", none), ("ANA_SG_STATUS_REG_3", none), ("ANA_PORT_VLAN_CFG", none),
   ("ANA_PORT_DROP_CFG", none), ("ANA_PORT_QOS_CFG", none), ("ANA_PORT_VCAP_CFG", none),
   ("ANA_PORT_VCAP_S1_KEY_CFG", none), ("ANA_PORT_VCAP_S2_CFG", none),
   ("ANA_PORT_PCP_DEI_MAP", none), ("ANA_PORT_CPU_FWD_CFG", none),
   ("ANA_PORT_CPU_FWD_BPDU_CFG", none), ("ANA_PORT_CPU_FWD_GARP_CFG", none),
   ("ANA_PORT_CPU_FWD_CCM_CFG", none), ("ANA_PORT_PORT_CFG", none), ("ANA_PORT_POL_CFG", none),
   ("ANA_PORT_PTP_CFG", none), ("ANA_PORT_PTP_DLY1_CFG", none), ("ANA_PORT_PTP_DLY2_CFG", none),
   ("ANA_PORT_SFID_CFG", none), ("ANA_PFC_PFC_CFG", none), ("ANA_PFC_PFC_TIMER", none),
   ("ANA_IPT_OAM_MEP_CFG", none), ("ANA_IPT_IPT", none), ("ANA_PPT_PPT", none),
   ("ANA_FID_MAP_FID_MAP", none), ("ANA_AGGR_CFG", none), ("ANA_CPUQ_CFG", none),
   ("ANA_CPUQ_CFG2", none), ("ANA_CPUQ_8021_CFG", none), ("ANA_DSCP_CFG", none),
   ("ANA_DSCP_REWR_CFG", none), ("ANA_VCAP_RNG_TYPE_CFG", none), ("ANA_VCAP_RNG_VAL_CFG", none),
   ("ANA_VRAP_CFG", none), ("ANA_VRAP_HDR_DATA", none), ("ANA_VRAP_HDR_MASK", none),
   ("ANA_DISCARD_CFG", none), ("ANA_FID_CFG", none), ("ANA_POL_PIR_CFG", none),
   ("ANA_POL_CIR_CFG", none), ("ANA_POL_MODE_CFG", none), ("ANA_POL_PIR_STATE", none),
   ("ANA_POL_CIR_STATE", none), ("ANA_POL_STATE", none), ("ANA_POL_FLOWC", none),
   ("ANA_POL_HYST", none), ("ANA_POL_MISC_CFG", none), ("PTP_MISC_CFG", some PTP),
   ("PTP_CLK_ADJ_CFG", none), ("PTP_CLK_ADJ_FRQ", none), ("PTP_PIN_INTR", none),
   ("PTP_PIN_INTR_ENA", none), ("PTP_INTR_IDENT", none), ("PTP_SYS_CLK_CFG", none),
   ("PTP_CUR_NSF", none), ("PTP_CUR_NSEC", none), ("PTP_CUR_SEC_LSB", none),
   ("PTP_CUR_SEC_MSB", none), ("PTP_PIN_CFG", none), ("PTP_TOD_SEC_MSB", none),
   ("PTP_TOD_SEC_LSB", none), ("PTP_TOD_NSEC", none), ("PTP_NSF", none),
   ("PTP_PIN_WF_HIGH_PERIOD", none), ("PTP_PIN_WF_LOW_PERIOD", none),
   ("QS_XTR_GRP_CFG", some QS), ("QS_XTR_RD", none), ("QS_XTR_FRM_PRUNING", none),
   ("QS_XTR_FLUSH", none), ("QS_XTR_DATA_PRESENT", none), ("QS_XTR_CFG", none),
   ("QS_INJ_GRP_CFG", none), ("QS_INJ_WR", none), ("QS_INJ_CTRL", none), ("QS_INJ_STATUS", none),
   ("QS_INJ_ERR", none), ("QS_INH_DBG", none), ("QSYS_PORT_MODE", some QSYS),
   ("QSYS_SWITCH_PORT_MODE", none), ("QSYS_STAT_CNT_CFG", none), ("QSYS_EEE_CFG", none),
   ("QSYS_EEE_THRES", none), ("QSYS_IGR_NO_SHARING", none), ("QSYS_EGR_NO_SHARING", none),
   ("QSYS_SW_STATUS", none), ("QSYS_EXT_CPU_CFG", none), ("QSYS_PAD_CFG", none),
   ("QSYS_CPU_GROUP_MAP", none), ("QSYS_QMAP", none), ("QSYS_ISDX_SGRP", none),
   ("QSYS_TIMED_FRAME_ENTRY", none), ("QSYS_TFRM_MISC", none), ("QSYS_TFRM_PORT_DLY", none),
   ("QSYS_TFRM_TIMER_CFG_1", none), ("QSYS_TFRM_TIMER_CFG_2", none),
   ("QSYS_TFRM_TIMER_CFG_3", none), ("QSYS_TFRM_TIMER_CFG_4", none),
   ("QSYS_TFRM_TIMER_CFG_5", none), ("QSYS_TFRM_TIMER_CFG_6", none),
   ("QSYS_TFRM_TIMER_CFG_7", none), ("QSYS_TFRM_TIMER_CFG_8", none), ("QSYS_RED_PROFILE", none),
   ("QSYS_RES_QOS_MODE", none), ("QSYS_RES_CFG", none), ("QSYS_RES_STAT", none),
   ("QSYS_EGR_DROP_MODE", none), ("QSYS_EQ_CTRL", none), ("QSYS_EVENTS_CORE", none),
   ("QSYS_QMAXSDU_CFG_0", none), ("QSYS_QMAXSDU_CFG_1", none), ("QSYS_QMAXSDU_CFG_2", none),
   ("QSYS_QMAXSDU_CFG_3", none), ("QSYS_QMAXSDU_CFG_4", none), ("QSYS_QMAXSDU_CFG_5", none),
   ("QSYS_QMAXSDU_CFG_6", none), ("QSYS_QMAXSDU_CFG_7", none), ("QSYS_PREEMPTION_CFG", none),
   ("QSYS_CIR_CFG", none), ("QSYS_EIR_CFG", none), ("QSYS_SE_CFG", none),
   ("QSYS_SE_DWRR_CFG", none), ("QSYS_SE_CONNECT", none), ("QSYS_SE_DLB_SENSE", none),
   ("QSYS_CIR_STATE", none), ("QSYS_EIR_STATE", none), ("QSYS_SE_STATE", none),
   ("QSYS_HSCH_MISC_CFG", none), ("QSYS_TAG_CONFIG", none), ("QSYS_TAS_PARAM_CFG_CTRL", none),
   ("QSYS_PORT_MAX_SDU", none), ("QSYS_PARAM_CFG_REG_1", none), ("QSYS_PARAM_CFG_REG_2", none),
   ("QSYS_PARAM_CFG_REG_3", none), ("QSYS_PARAM_CFG_REG_4", none),
   ("QSYS_PARAM_CFG_REG_5", none), ("QSYS_GCL_CFG_REG_1", none), ("QSYS_GCL_CFG_REG_2", none),
   ("QSYS_PARAM_STATUS_REG_1", none), ("QSYS_PARAM_STATUS_REG_2", none),
   ("QSYS_PARAM_STATUS_REG_3", none), ("QSYS_PARAM_STATUS_REG_4", none),
   ("QSYS_PARAM_STATUS_REG_5", none), ("QSYS_PARAM_STATUS_REG_6", none),
   ("QSYS_PARAM_STATUS_REG_7", none), ("QSYS_PARAM_STATUS_REG_8", none),
   ("QSYS_PARAM_STATUS_REG_9", none), ("QSYS_GCL_STATUS_REG_1", none),
   ("QSYS_GCL_STATUS_REG_2", none), ("REW_PORT_VLAN_CFG", some REW), ("REW_TAG_CFG", none),
   ("REW_PORT_CFG", none), ("REW_DSCP_CFG", none), ("REW_PCP_DEI_QOS_MAP_CFG", none),
   ("REW_PTP_CFG", none), ("REW_PTP_DLY1_CFG", none), ("REW_RED_TAG_CFG", none),
   ("REW_DSCP_REMAP_DP1_CFG", none), ("REW_DSCP_REMAP_CFG", none), ("REW_STAT_CFG", none),
   ("REW_REW_STICKY", none), ("REW_PPT", none), ("SYS_COUNT_RX_OCTETS", some SYS),
   ("SYS_COUNT_RX_UNICAST", none), ("SYS_COUNT_RX_MULTICAST", none),
   ("SYS_COUNT_RX_BROADCAST", none), ("SYS_COUNT_RX_SHORTS", none),
   ("SYS_COUNT_RX_FRAGMENTS", none), ("SYS_COUNT_RX_JABBERS", none),
   ("SYS_COUNT_RX_CRC_ALIGN_ERRS", none), ("SYS_COUNT_RX_SYM_ERRS", none),
   ("SYS_COUNT_RX_64", none), ("SYS_COUNT_RX_65_127", none), ("SYS_COUNT_RX_128_255", none),
   ("SYS_COUNT_RX_256_1023", none), ("SYS_COUNT_RX_1024_1526", none),
   ("SYS_COUNT_RX_1527_MAX", none), ("SYS_COUNT_RX_PAUSE", none), ("SYS_COUNT_RX_CONTROL", none),
   ("SYS_COUNT_RX_LONGS", none), ("SYS_COUNT_RX_CLASSIFIED_DROPS", none),
   ("SYS_COUNT_TX_OCTETS", none), ("SYS_COUNT_TX_UNICAST", none),
   ("SYS_COUNT_TX_MULTICAST", none), ("SYS_COUNT_TX_BROADCAST", none),
   ("SYS_COUNT_TX_COLLISION", none), ("SYS_COUNT_TX_DROPS", none), ("SYS_COUNT_TX_PAUSE", none),
   ("SYS_COUNT_TX_64", none), ("SYS_COUNT_TX_65_127", none), ("SYS_COUNT_TX_128_511", none),
   ("SYS_COUNT_TX_512_1023", none), ("SYS_COUNT_TX_1024_1526", none),
   ("SYS_COUNT_TX_1527_MAX", none), ("SYS_COUNT_TX_AGING", none), ("SYS_RESET_CFG", none),
   ("SYS_SR_ETYPE_CFG", none), ("SYS_VLAN_ETYPE_CFG", none), ("SYS_PORT_MODE", none),
   ("SYS_FRONT_PORT_MODE", none), ("SYS_FRM_AGING", none), ("SYS_STAT_CFG", none),
   ("SYS_SW_STATUS", none), ("SYS_MISC_CFG", none), ("SYS_REW_MAC_HIGH_CFG", none),
   ("SYS_REW_MAC_LOW_CFG", none), ("SYS_TIMESTAMP_OFFSET", none), ("SYS_CMID", none),
   ("SYS_PAUSE_CFG", none), ("SYS_PAUSE_TOT_CFG", none), ("SYS_ATOP", none),
   ("SYS_ATOP_TOT_CFG", none), ("SYS_MAC_FC_CFG", none), ("SYS_MMGT", none),
   ("SYS_MMGT_FAST", none), ("SYS_EVENTS_DIF", none), ("SYS_EVENTS_CORE", none),
   ("SYS_CNT", none), ("SYS_PTP_STATUS", none), ("SYS_PTP_TXSTAMP", none), ("SYS_PTP_NXT", none),
   ("SYS_PTP_CFG", none), ("SYS_RAM_INIT", none), ("SYS_CM_ADDR", none),
   ("SYS_CM_DATA_WR", none), ("SYS_CM_DATA_RD", none), ("SYS_CM_OP", none),
   ("SYS_CM_DATA", none), ("HSIO_PLL5G_CFG0", some HSIO), ("HSIO_PLL5G_CFG1", none),
   ("HSIO_PLL5G_CFG2", none), ("HSIO_PLL5G_CFG3", none), ("HSIO_PLL5G_CFG4", none),
   ("HSIO_PLL5G_CFG5", none), ("HSIO_PLL5G_CFG6", none), ("HSIO_PLL5G_STATUS0", none),
   ("HSIO_PLL5G_STATUS1", none), ("HSIO_PLL5G_BIST_CFG0", none), ("HSIO_PLL5G_BIST_CFG1", none),
   ("HSIO_PLL5G_BIST_CFG2", none), ("HSIO_PLL5G_BIST_STAT0", none),
   ("HSIO_PLL5G_BIST_STAT1", none), ("HSIO_RCOMP_CFG0", none), ("HSIO_RCOMP_STATUS", none),
   ("HSIO_SYNC_ETH_CFG", none), ("HSIO_SYNC_ETH_PLL_CFG", none), ("HSIO_S1G_DES_CFG", none),
   ("HSIO_S1G_IB_CFG", none), ("HSIO_S1G_OB_CFG", none), ("HSIO_S1G_SER_CFG", none),
   ("HSIO_S1G_COMMON_CFG", none), ("HSIO_S1G_PLL_CFG", none), ("HSIO_S1G_PLL_STATUS", none),
   ("HSIO_S1G_DFT_CFG0", none), ("HSIO_S1G_DFT_CFG1", none), ("HSIO_S1G_DFT_CFG2", none),
   ("HSIO_S1G_TP_CFG", none), ("HSIO_S1G_RC_PLL_BIST_CFG", none), ("HSIO_S1G_MISC_CFG", none),
   ("HSIO_S1G_DFT_STATUS", none), ("HSIO_S1G_MISC_STATUS", none),
   ("HSIO_MCB_S1G_ADDR_CFG", none), ("HSIO_S6G_DIG_CFG", none), ("HSIO_S6G_DFT_CFG0", none),
   ("HSIO_S6G_DFT_CFG1", none), ("HSIO_S6G_DFT_CFG2", none), ("HSIO_S6G_TP_CFG0", none),
   ("HSIO_S6G_TP_CFG1", none), ("HSIO_S6G_RC_PLL_BIST_CFG", none), ("HSIO_S6G_MISC_CFG", none),
   ("HSIO_S6G_OB_ANEG_CFG", none), ("HSIO_S6G_DFT_STATUS", none), ("HSIO_S6G_ERR_CNT", none),
   ("HSIO_S6G_MISC_STATUS", none), ("HSIO_S6G_DES_CFG", none), ("HSIO_S6G_IB_CFG", none),
   ("HSIO_S6G_IB_CFG1", none), ("HSIO_S6G_IB_CFG2", none), ("HSIO_S6G_IB_CFG3", none),
   ("HSIO_S6G_IB_CFG4", none), ("HSIO_S6G_IB_CFG5", none), ("HSIO_S6G_OB_CFG", none),
   ("HSIO_S6G_OB_CFG1", none), ("HSIO_S6G_SER_CFG", none), ("HSIO_S6G_COMMON_CFG", none),
   ("HSIO_S6G_PLL_CFG", none), ("HSIO_S6G_ACJTAG_CFG", none), ("HSIO_S6G_GP_CFG", none),
   ("HSIO_S6G_IB_STATUS0", none), ("HSIO_S6G_IB_STATUS1", none),
   ("HSIO_S6G_ACJTAG_STATUS", none), ("HSIO_S6G_PLL_STATUS", none), ("HSIO_S6G_REVID", none),
   ("HSIO_MCB_S6G_ADDR_CFG", none), ("HSIO_HW_CFG", none), ("HSIO_HW_QSGMII_CFG", none),
   ("HSIO_HW_QSGMII_STAT", none), ("HSIO_CLK_CFG", none), ("HSIO_TEMP_SENSOR_CTRL", none),
   ("HSIO_TEMP_SENSOR_CFG", none), ("HSIO_TEMP_SENSOR_STAT", none), ("GCB_SOFT_RST", some GCB),
   ("S2_CORE_UPDATE_CTRL", some S2), ("S2_CORE_MV_CFG", none), ("S2_CACHE_ENTRY_DAT", none),
   ("S2_CACHE_MASK_DAT", none), ("S2_CACHE_ACTION_DAT", none), ("S2_CACHE_CNT_DAT", none),
   ("S2_CACHE_TG_DAT", none)]

/-- The enumerators of `enum ocelot_reg` with their values. -/
def ocelot_reg : List (String × Nat) := enum_values 0 ocelot_reg_decls

/-- The values of `enum ocelot_reg` in source order. -/
def ocelot_reg_values : List Nat := ocelot_reg.map Prod.snd

/-- The target a register symbol decodes to: its value shifted right by
`TARGET_OFFSET`. -/
def target_of (v : Nat) : Nat := v >>> TARGET_OFFSET

/-- The table index `reg & REG_MASK` that `REG(reg, offset)` uses. -/
def index_of (v : Nat) : Nat := v &&& REG_MASK

/-! ### Vocabulary of the statements about the register map -/

/-- The number of values in a list that decode to the target `t`. -/
def count_target (t : Nat) : List Nat → Nat
  | [] => 0
  | w :: ws => if target_of w = t then count_target t ws + 1 else count_target t ws

/-- One pass over the values in source order, `seen` holding the values
already passed, latest first.  Each value must decode to a target between 1
and 9; and either it continues the run of the value before it (same target,
table index one higher), or it starts a target (table index 0, no value of its
target seen). -/
def check_decode : List Nat → List Nat → Bool
  | _, [] => true
  | seen, v :: vs =>
    decide (1 ≤ target_of v ∧ target_of v ≤ 9) &&
    (match seen with
     | u :: _ =>
       decide (target_of v = target_of u ∧ index_of v = index_of u + 1) ||
         decide (index_of v = 0 ∧ count_target (target_of v) seen = 0)
     | [] => decide (index_of v = 0)) &&
    check_decode (v :: seen) vs

end Ocelot

/-! # Properties -/

namespace FslMcMsi

theorem fls_aux_le (w x : Nat) : fls_aux w x ≤ w := by
  induction w generalizing x with
  | zero => simp [fls_aux]
  | succ w ih =>
    unfold fls_aux
    split
    · omega
    · have := ih (x / 2); omega

theorem lt_two_pow_fls_aux (w x : Nat) (h : x < 2 ^ w) : x < 2 ^ fls_aux w x := by
  induction w generalizing x with
  | zero => simp at h; simp [fls_aux, h]
  | succ w ih =>
    unfold fls_aux
    split
    · omega
    · have h2 : x / 2 < 2 ^ w := by rw [pow_succ] at h; omega
      have := ih (x / 2) h2
      rw [pow_succ]; omega

theorem two_pow_fls_aux_le (w x : Nat) (hx : x ≠ 0) (h : x < 2 ^ w) :
    2 ^ (fls_aux w x - 1) ≤ x := by
  induction w generalizing x with
  | zero => simp at h; omega
  | succ w ih =>
    unfold fls_aux
    rw [if_neg hx]
    have h2 : x / 2 < 2 ^ w := by rw [pow_succ] at h; omega
    by_cases hz : x / 2 = 0
    · have : fls_aux w (x / 2) = 0 := by
        rw [hz]; cases w <;> simp [fls_aux]
      rw [this]; simp; omega
    · have := ih (x / 2) hz h2
      have hpos : 0 < fls_aux w (x / 2) := by
        cases w with
        | zero => simp at h2; omega
        | succ w => unfold fls_aux; rw [if_neg hz]; omega
      have e : fls_aux w (x / 2) + 1 - 1 = (fls_aux w (x / 2) - 1) + 1 := by omega
      rw [e, pow_succ]; omega

end FslMcMsi

namespace FslMcMsi

theorem to_ulong_of_nat (n : Nat) (h : n < 2 ^ 64) : to_ulong (n : Int) = n := by
  unfold to_ulong
  have : ((n : Int) % (2 : Int) ^ 64) = (n : Int) := by
    apply Int.emod_eq_of_lt <;> omega
  rw [this]; simp

theorem to_ulong_of_neg (m : Nat) (h0 : 0 < m) (h : m ≤ 2 ^ 64) :
    to_ulong (-(m : Int)) = 2 ^ 64 - m := by
  unfold to_ulong
  have : ((-(m : Int)) % (2 : Int) ^ 64) = (((2 ^ 64 - m : Nat)) : Int) := by
    have e : (-(m : Int)) = (((2 ^ 64 - m : Nat)) : Int) + (2 : Int) ^ 64 * (-1) := by
      omega
    rw [e, Int.add_mul_emod_self_left]
    apply Int.emod_eq_of_lt <;> omega
  rw [this]; simp

theorem fls_long_eq (x : Nat) (h : x < 2 ^ 64) : fls_long x = fls_aux 64 x := by
  unfold fls_long; rw [Nat.mod_eq_of_lt h]

theorem fls_long_top (x : Nat) (h : x < 2 ^ 64) (h2 : 2 ^ 63 ≤ x) : fls_long x = 64 := by
  rw [fls_long_eq x h]
  have h1 := fls_aux_le 64 x
  have h3 := lt_two_pow_fls_aux 64 x h
  by_contra hne
  have h4 : fls_aux 64 x ≤ 63 := by omega
  have h5 : 2 ^ fls_aux 64 x ≤ 2 ^ 63 := Nat.pow_le_pow_right (by norm_num) h4
  omega

/-- Rounding by `roundup_pow_of_two` on `2 ≤ n ≤ 2^63`: the result is a power
of two that is at least `n`, and half of it is below `n`. -/
theorem roundup_pow_of_two_spec (n : Nat) (h1 : 2 ≤ n) (h2 : n ≤ 2 ^ 63) :
    ∃ k, 1 ≤ k ∧ k ≤ 63 ∧ roundup_pow_of_two n = 2 ^ k ∧ n ≤ 2 ^ k ∧ 2 ^ (k - 1) < n := by
  have hn : n % 2 ^ 64 = n := Nat.mod_eq_of_lt (by omega)
  have hm : (n + (2 ^ 64 - 1)) % 2 ^ 64 = n - 1 := by
    have e : n + (2 ^ 64 - 1) = (n - 1) + 2 ^ 64 := by omega
    rw [e, Nat.add_mod_right, Nat.mod_eq_of_lt (by omega)]
  have hlt : n - 1 < 2 ^ 64 := by omega
  have hU := lt_two_pow_fls_aux 64 (n - 1) hlt
  have hL := two_pow_fls_aux_le 64 (n - 1) (by omega) hlt
  have hk1 : 1 ≤ fls_aux 64 (n - 1) := by
    by_contra hc
    have : fls_aux 64 (n - 1) = 0 := by omega
    rw [this] at hU; simp at hU; omega
  have hk63 : fls_aux 64 (n - 1) ≤ 63 := by
    by_contra hc
    have h64 : 63 ≤ fls_aux 64 (n - 1) - 1 := by omega
    have : 2 ^ 63 ≤ 2 ^ (fls_aux 64 (n - 1) - 1) := Nat.pow_le_pow_right (by norm_num) h64
    omega
  refine ⟨fls_aux 64 (n - 1), hk1, hk63, ?_, by omega, by omega⟩
  unfold roundup_pow_of_two shl_ulong
  rw [hn, hm, fls_long_eq _ hlt, Nat.mod_eq_of_lt (by omega : fls_aux 64 (n - 1) < 64),
    Nat.one_shiftLeft]
  apply Nat.mod_eq_of_lt
  exact Nat.pow_lt_pow_right (by norm_num) (by omega)

/-- Line 52 on `32 < nvec ≤ 2^30`: the value is the least power of two that
is at least `nvec`. -/
theorem prepared_nvec_pow2 (nvec : Int) (h1 : 32 < nvec) (h2 : nvec ≤ 2 ^ 30) :
    (∃ k : Nat, prepared_nvec nvec = 2 ^ k) ∧ nvec ≤ prepared_nvec nvec ∧
      ∀ j : Nat, nvec ≤ 2 ^ j → prepared_nvec nvec ≤ 2 ^ j := by
  obtain ⟨n, rfl⟩ : ∃ n : Nat, nvec = (n : Int) := ⟨nvec.toNat, by omega⟩
  have hn1 : 32 < n := by exact_mod_cast h1
  have hn2 : n ≤ 2 ^ 30 := by exact_mod_cast h2
  obtain ⟨k, hk1, _, hr, hge, hlt⟩ := roundup_pow_of_two_spec n (by omega) (by omega)
  have hk30 : k ≤ 30 := by
    by_contra hc
    have : 2 ^ 30 ≤ 2 ^ (k - 1) := Nat.pow_le_pow_right (by norm_num) (by omega)
    omega
  have hp : 2 ^ k ≤ 2 ^ 30 := Nat.pow_le_pow_right (by norm_num) hk30
  have hv : prepared_nvec (n : Int) = ((2 ^ k : Nat) : Int) := by
    unfold prepared_nvec
    rw [to_ulong_of_nat n (by omega), hr]
    unfold to_int max_t_int
    have h31 : 2 ^ k < 2 ^ 31 := by omega
    have h32 : (32 : Int) < ((2 ^ k : Nat) : Int) := by exact_mod_cast (by omega : 32 < 2 ^ k)
    rw [Nat.mod_eq_of_lt (by omega : 2 ^ k < 2 ^ 32), if_pos h31, if_neg (by omega)]
  refine ⟨⟨k, by rw [hv]; push_cast; rfl⟩, by rw [hv]; exact_mod_cast hge, ?_⟩
  intro j hj
  rw [hv]
  have hj2 : n ≤ 2 ^ j := by exact_mod_cast hj
  have hkj : k - 1 < j := by
    by_contra hc
    have : 2 ^ j ≤ 2 ^ (k - 1) := Nat.pow_le_pow_right (by norm_num) (by omega)
    omega
  have : 2 ^ k ≤ 2 ^ j := Nat.pow_le_pow_right (by norm_num) (by omega)
  exact_mod_cast this

/-- Line 52 on `2^30 < nvec < 2^31`: the rounded value `2^31` does not fit an
`int`, becomes negative, and the maximum with 32 is 32. -/
theorem prepared_nvec_overflow (nvec : Int) (h1 : 2 ^ 30 < nvec) (h2 : nvec < 2 ^ 31) :
    prepared_nvec nvec = 32 := by
  obtain ⟨n, rfl⟩ : ∃ n : Nat, nvec = (n : Int) := ⟨nvec.toNat, by omega⟩
  have hn1 : 2 ^ 30 < n := by exact_mod_cast h1
  have hn2 : n < 2 ^ 31 := by exact_mod_cast h2
  obtain ⟨k, hk1, _, hr, hge, hlt⟩ := roundup_pow_of_two_spec n (by omega) (by omega)
  have hk : k = 31 := by
    have a : 30 < k := by
      by_contra hc
      have : 2 ^ k ≤ 2 ^ 30 := Nat.pow_le_pow_right (by norm_num) (by omega)
      omega
    have b : k - 1 < 31 := by
      by_contra hc
      have : 2 ^ 31 ≤ 2 ^ (k - 1) := Nat.pow_le_pow_right (by norm_num) (by omega)
      omega
    omega
  unfold prepared_nvec
  rw [to_ulong_of_nat n (by omega), hr, hk]
  decide

/-- Line 52 on `nvec ≤ 32`: the value is 32. -/
theorem prepared_nvec_floor (nvec : Int) (h1 : -(2 ^ 31) ≤ nvec) (h2 : nvec ≤ 32) :
    prepared_nvec nvec = 32 := by
  by_cases hpos : 0 < nvec
  · obtain ⟨n, rfl⟩ : ∃ n : Nat, nvec = (n : Int) := ⟨nvec.toNat, by omega⟩
    have hn1 : 0 < n := by exact_mod_cast hpos
    have hn2 : n ≤ 32 := by exact_mod_cast h2
    interval_cases n <;> decide
  · by_cases hz : nvec = 0
    · subst hz; decide
    · obtain ⟨m, rfl⟩ : ∃ m : Nat, nvec = -(m : Int) := ⟨(-nvec).toNat, by omega⟩
      have hm1 : 0 < m := by omega
      have hm2 : m ≤ 2 ^ 31 := by omega
      unfold prepared_nvec roundup_pow_of_two
      rw [to_ulong_of_neg m hm1 (by omega)]
      have e1 : (2 ^ 64 - m) % 2 ^ 64 = 2 ^ 64 - m := Nat.mod_eq_of_lt (by omega)
      have e2 : (2 ^ 64 - m + (2 ^ 64 - 1)) % 2 ^ 64 = 2 ^ 64 - m - 1 := by
        have e : 2 ^ 64 - m + (2 ^ 64 - 1) = (2 ^ 64 - m - 1) + 2 ^ 64 := by omega
        rw [e, Nat.add_mod_right, Nat.mod_eq_of_lt (by omega)]
      rw [e1, e2, fls_long_top _ (by omega) (by omega)]
      decide

end FslMcMsi

namespace FslMcMsi

/-- On a device that passes both checks the outcome of `its_fsl_mc_msi_prepare`
is: one call of the parent with the ICID stored and the count of line 52, and
the parent's results handed on. -/
theorem prepare_of_checks (K : khdr) (d : irq_domain) (dev : device) (nvec : Int)
    (info : msi_alloc_info_t) (h1 : dev.dev_is_fsl_mc = true)
    (h2 : dev.mc.flags &&& K.FSL_MC_IS_DPRC ≠ 0) :
    its_fsl_mc_msi_prepare K d dev nvec info =
      { ret := (d.parent_msi_prepare dev (prepared_nvec nvec)
          { info with scratchpad0 := dev.mc.icid }).1,
        info := (d.parent_msi_prepare dev (prepared_nvec nvec)
          { info with scratchpad0 := dev.mc.icid }).2,
        parent_calls :=
          [{ dev := dev
             nvec := prepared_nvec nvec
             info := { info with scratchpad0 := dev.mc.icid } }] } := by
  simp [its_fsl_mc_msi_prepare, h1, h2]

/-- C1, as stated, fails: a DPRC device asking for `2^30 + 1` vectors (more
than 32, a valid `int`) has only 32 vectors requested from the parent, which
is below the request and so not a power of two at or above it. -/
theorem prepare_nvec_overflow_counterexample :
    dprc_dev.dev_is_fsl_mc = true ∧ dprc_dev.mc.flags &&& linux_khdr.FSL_MC_IS_DPRC ≠ 0 ∧
      (32 : Int) < 2 ^ 30 + 1 ∧ (2 ^ 30 + 1 : Int) < 2 ^ 31 ∧
      (its_fsl_mc_msi_prepare linux_khdr dom_ok dprc_dev (2 ^ 30 + 1) info0).parent_calls.map
        ParentCall.nvec = [32] ∧
      ¬ ((2 ^ 30 + 1 : Int) ≤ 32) := by
  decide

/-- C1, amended: for every requested count `32 < nvec ≤ 2^30` on a device that
passes the fsl-mc and DPRC checks, the parent's `msi_prepare` is called once
and the count it receives is a power of two, is at least `nvec`, and is below
or equal to every power of two that is at least `nvec`. -/
theorem prepare_nvec_smallest_pow2 (K : khdr) (d : irq_domain) (dev : device) (nvec : Int)
    (info : msi_alloc_info_t) (h1 : dev.dev_is_fsl_mc = true)
    (h2 : dev.mc.flags &&& K.FSL_MC_IS_DPRC ≠ 0) (hlo : 32 < nvec) (hhi : nvec ≤ 2 ^ 30) :
    ∃ c : ParentCall, (its_fsl_mc_msi_prepare K d dev nvec info).parent_calls = [c] ∧
      (∃ k : Nat, c.nvec = 2 ^ k) ∧ nvec ≤ c.nvec ∧
      ∀ j : Nat, nvec ≤ 2 ^ j → c.nvec ≤ 2 ^ j := by
  rw [prepare_of_checks K d dev nvec info h1 h2]
  refine ⟨⟨dev, prepared_nvec nvec, { info with scratchpad0 := dev.mc.icid }⟩, rfl, ?_⟩
  dsimp only
  exact prepared_nvec_pow2 nvec hlo hhi

/-- Witness of the amended C1 at 33 requested vectors. -/
theorem prepare_nvec_smallest_pow2_witness :
    ∃ c : ParentCall, (its_fsl_mc_msi_prepare linux_khdr dom_ok dprc_dev 33 info0).parent_calls
        = [c] ∧
      (∃ k : Nat, c.nvec = 2 ^ k) ∧ (33 : Int) ≤ c.nvec ∧
      ∀ j : Nat, (33 : Int) ≤ 2 ^ j → c.nvec ≤ 2 ^ j :=
  prepare_nvec_smallest_pow2 linux_khdr dom_ok dprc_dev 33 info0 (by decide) (by decide)
    (by decide) (by decide)

/-- C2: for every `int` count `nvec ≤ 32` (zero and negative values included)
on a device that passes the fsl-mc and DPRC checks, the parent's `msi_prepare`
is called once and the count it receives is exactly 32. -/
theorem prepare_nvec_floor_32 (K : khdr) (d : irq_domain) (dev : device) (nvec : Int)
    (info : msi_alloc_info_t) (h1 : dev.dev_is_fsl_mc = true)
    (h2 : dev.mc.flags &&& K.FSL_MC_IS_DPRC ≠ 0) (hlo : -(2 ^ 31) ≤ nvec) (hhi : nvec ≤ 32) :
    (its_fsl_mc_msi_prepare K d dev nvec info).parent_calls.map ParentCall.nvec = [32] := by
  rw [prepare_of_checks K d dev nvec info h1 h2]
  simp [prepared_nvec_floor nvec hlo hhi]

/-- Witness of C2 at a request for `-7` vectors. -/
theorem prepare_nvec_floor_32_witness :
    (its_fsl_mc_msi_prepare linux_khdr dom_ok dprc_dev (-7) info0).parent_calls.map
      ParentCall.nvec = [32] :=
  prepare_nvec_floor_32 linux_khdr dom_ok dprc_dev (-7) info0 (by decide) (by decide)
    (by decide) (by decide)

/-- C9: on an fsl-mc device with `FSL_MC_IS_DPRC` set, the parent's
`msi_prepare` is called exactly once, with the same device and with the info
in which `scratchpad[0].ul` already holds the device's ICID (every other field
as the caller passed it); the return value and the final info are the parent's. -/
theorem prepare_forwards_to_parent (K : khdr) (d : irq_domain) (dev : device) (nvec : Int)
    (info : msi_alloc_info_t) (h1 : dev.dev_is_fsl_mc = true)
    (h2 : dev.mc.flags &&& K.FSL_MC_IS_DPRC ≠ 0) :
    ∃ c : ParentCall, (its_fsl_mc_msi_prepare K d dev nvec info).parent_calls = [c] ∧
      c.dev = dev ∧ c.info = { info with scratchpad0 := dev.mc.icid } ∧
      c.info.scratchpad0 = dev.mc.icid ∧
      (its_fsl_mc_msi_prepare K d dev nvec info).ret =
        (d.parent_msi_prepare c.dev c.nvec c.info).1 ∧
      (its_fsl_mc_msi_prepare K d dev nvec info).info =
        (d.parent_msi_prepare c.dev c.nvec c.info).2 := by
  rw [prepare_of_checks K d dev nvec info h1 h2]
  refine ⟨⟨dev, prepared_nvec nvec, { info with scratchpad0 := dev.mc.icid }⟩, rfl, ?_⟩
  dsimp only
  exact ⟨rfl, rfl, rfl, rfl, rfl⟩

/-- Witness of C9 on the DPRC device with ICID 5. -/
theorem prepare_forwards_to_parent_witness :
    ∃ c : ParentCall, (its_fsl_mc_msi_prepare linux_khdr dom_ok dprc_dev 8 info0).parent_calls
        = [c] ∧
      c.dev = dprc_dev ∧ c.info = { info0 with scratchpad0 := dprc_dev.mc.icid } ∧
      c.info.scratchpad0 = dprc_dev.mc.icid ∧
      (its_fsl_mc_msi_prepare linux_khdr dom_ok dprc_dev 8 info0).ret =
        (dom_ok.parent_msi_prepare c.dev c.nvec c.info).1 ∧
      (its_fsl_mc_msi_prepare linux_khdr dom_ok dprc_dev 8 info0).info =
        (dom_ok.parent_msi_prepare c.dev c.nvec c.info).2 :=
  prepare_forwards_to_parent linux_khdr dom_ok dprc_dev 8 info0 (by decide) (by decide)

/-- C10, as stated, fails: on a DPRC device that passes both checks the
function still returns `-EINVAL` when that is what the parent's `msi_prepare`
returns, and the parent has been called. -/
theorem prepare_einval_from_parent_counterexample :
    dprc_dev.dev_is_fsl_mc = true ∧ dprc_dev.mc.flags &&& linux_khdr.FSL_MC_IS_DPRC ≠ 0 ∧
      (its_fsl_mc_msi_prepare linux_khdr dom_einval dprc_dev 1 info0).ret
        = -linux_khdr.EINVAL ∧
      (its_fsl_mc_msi_prepare linux_khdr dom_einval dprc_dev 1 info0).parent_calls.length
        = 1 := by
  decide

/-- C10, amended: when the device is not an fsl-mc device or its flags lack
`FSL_MC_IS_DPRC`, the function returns `-EINVAL`, leaves the info as it was and
never calls the parent; in every other case it returns what the parent's
`msi_prepare` returns (which may itself be `-EINVAL`), after one call. -/
theorem prepare_einval_path (K : khdr) (d : irq_domain) (dev : device) (nvec : Int)
    (info : msi_alloc_info_t) :
    ((dev.dev_is_fsl_mc = false ∨ dev.mc.flags &&& K.FSL_MC_IS_DPRC = 0) →
        (its_fsl_mc_msi_prepare K d dev nvec info).ret = -K.EINVAL ∧
        (its_fsl_mc_msi_prepare K d dev nvec info).info = info ∧
        (its_fsl_mc_msi_prepare K d dev nvec info).parent_calls = []) ∧
      (¬ (dev.dev_is_fsl_mc = false ∨ dev.mc.flags &&& K.FSL_MC_IS_DPRC = 0) →
        (its_fsl_mc_msi_prepare K d dev nvec info).ret =
          (d.parent_msi_prepare dev (prepared_nvec nvec)
            { info with scratchpad0 := dev.mc.icid }).1 ∧
        (its_fsl_mc_msi_prepare K d dev nvec info).parent_calls.length = 1) := by
  constructor
  · rintro (h | h)
    · simp [its_fsl_mc_msi_prepare, h]
    · cases hb : dev.dev_is_fsl_mc <;> simp [its_fsl_mc_msi_prepare, h, hb]
  · intro h
    have h1 : dev.dev_is_fsl_mc = true := by
      cases hb : dev.dev_is_fsl_mc
      · exact absurd (Or.inl hb) h
      · rfl
    have h2 : dev.mc.flags &&& K.FSL_MC_IS_DPRC ≠ 0 := fun hc => h (Or.inr hc)
    rw [prepare_of_checks K d dev nvec info h1 h2]
    exact ⟨rfl, rfl⟩

/-- The amended C10 evaluated on an fsl-mc device that is not a DPRC. -/
theorem prepare_einval_path_witness :
    (its_fsl_mc_msi_prepare linux_khdr dom_ok plain_mc_dev 8 info0).ret = -linux_khdr.EINVAL ∧
      (its_fsl_mc_msi_prepare linux_khdr dom_ok plain_mc_dev 8 info0).info = info0 ∧
      (its_fsl_mc_msi_prepare linux_khdr dom_ok plain_mc_dev 8 info0).parent_calls = [] :=
  (prepare_einval_path linux_khdr dom_ok plain_mc_dev 8 info0).1 (Or.inr (by decide))

end FslMcMsi

namespace LsPcieG4

theorem next_lt (s : State) (w : Nat) : s.next w < 2 ^ w :=
  Nat.mod_lt _ (Nat.two_pow_pos w)

theorem next_mod (s : State) (w : Nat) : s.next w % 2 ^ w = s.next w :=
  Nat.mod_eq_of_lt (next_lt s w)

/-- C3: `ls_pcie_g4_link_up` reads `PCIE_PF_DBG` once; for the 32-bit value `v`
it reads, it returns 1 exactly when `(v & 0x3f) == 0x2d` and 0 exactly when
not, and two runs whose values agree on bits 0..5 return the same, whatever
bits 6..31 are. -/
theorem link_up_iff_ltssm_l0 (s : State) :
    (ls_pcie_g4_link_up s).2.trace
        = s.trace ++ [.ioread32 (PCIE_PF_OFF + PCIE_PF_DBG) (s.next 32)] ∧
      ((ls_pcie_g4_link_up s).1 = 1 ↔ s.next 32 &&& 0x3f = 0x2d) ∧
      ((ls_pcie_g4_link_up s).1 = 0 ↔ s.next 32 &&& 0x3f ≠ 0x2d) ∧
      ∀ t : State, t.next 32 % 2 ^ 6 = s.next 32 % 2 ^ 6 →
        (ls_pcie_g4_link_up t).1 = (ls_pcie_g4_link_up s).1 := by
  have key : ∀ u : State, (ls_pcie_g4_link_up u).1 = if u.next 32 % 2 ^ 6 = 0x2d then 1 else 0 := by
    intro u
    have e : u.next 32 &&& 0x3f = u.next 32 % 2 ^ 6 := Nat.and_pow_two_sub_one_eq_mod _ 6
    simp only [ls_pcie_g4_link_up, ls_pcie_g4_pf_readl, ioread32, State.read,
      PF_DBG_LTSSM_MASK, LS_PCIE_G4_LTSSM_L0, e]
    split <;> rfl
  have e : s.next 32 &&& 0x3f = s.next 32 % 2 ^ 6 := Nat.and_pow_two_sub_one_eq_mod _ 6
  refine ⟨?_, ?_, ?_, ?_⟩
  · simp only [ls_pcie_g4_link_up, ls_pcie_g4_pf_readl, ioread32, State.read]
    split <;> rfl
  · rw [key, e]; split <;> simp_all
  · rw [key, e]; split <;> simp_all
  · intro t ht
    rw [key, key, ht]

end LsPcieG4

namespace LsPcieG4

/-- C4: `ls_pcie_g4_handler` reads `PAB_INTP_AMBA_MISC_STAT` once; for the
32-bit value `v` it reads it returns `IRQ_NONE` exactly when `v = 0` and
`IRQ_HANDLED` exactly when `v ≠ 0`.  When `v = 0` the read is its only event
(no register write, no work scheduled); when `v ≠ 0` its only register write
is `v` itself to `PAB_INTP_AMBA_MISC_STAT`, as its last event. -/
theorem handler_none_iff_status_zero (K : mobiveil_hdr) (s : State) :
    ((ls_pcie_g4_handler K s).1 = irqreturn_t.IRQ_NONE ↔ s.next 32 = 0) ∧
      ((ls_pcie_g4_handler K s).1 = irqreturn_t.IRQ_HANDLED ↔ s.next 32 ≠ 0) ∧
      (ls_pcie_g4_handler K s).2.trace = s.trace ++
        (if s.next 32 = 0 then [Event.csr_readl K.PAB_INTP_AMBA_MISC_STAT 0]
         else [Event.csr_readl K.PAB_INTP_AMBA_MISC_STAT (s.next 32)] ++
           (if s.next 32 &&& K.PAB_INTP_RESET ≠ 0 then [Event.schedule_delayed_work 1]
            else []) ++
           [Event.csr_writel (s.next 32) K.PAB_INTP_AMBA_MISC_STAT]) ∧
      ((ls_pcie_g4_handler K s).2.trace.drop s.trace.length).filter Event.is_write =
        (if s.next 32 = 0 then []
         else [Event.csr_writel (s.next 32) K.PAB_INTP_AMBA_MISC_STAT]) := by
  have hm : s.next 32 % 4294967296 = s.next 32 := next_mod s 32
  by_cases hv : s.next 32 = 0
  · simp [ls_pcie_g4_handler, csr_readl, State.read, hv, Event.is_write]
  · by_cases hr : s.next 32 &&& K.PAB_INTP_RESET = 0
    · simp [ls_pcie_g4_handler, csr_readl, csr_writel, State.read, State.emit, hv, hr, hm,
        Event.is_write]
    · simp [ls_pcie_g4_handler, csr_readl, csr_writel, schedule_delayed_work, State.read,
        State.emit, hv, hr, hm, Event.is_write]

/-- The two events of `workaround_A011451`: a read of `GPEX_ACK_REPLAY_TO` and the
write of the patched value. -/
theorem workaround_trace (K : mobiveil_hdr) (s : State) :
    (workaround_A011451 K s).trace = s.trace ++
      [Event.csr_readl K.GPEX_ACK_REPLAY_TO (s.next 32),
       Event.csr_writel
        (((s.next 32 &&& not32 (K.ACK_LAT_TO_VAL_MASK <<< K.ACK_LAT_TO_VAL_SHIFT)) |||
          ((4 <<< K.ACK_LAT_TO_VAL_SHIFT) % 2 ^ 32)) % 2 ^ 32) K.GPEX_ACK_REPLAY_TO] := by
  simp [workaround_A011451, csr_readl, csr_writel, State.read, State.emit]

theorem workaround_rev (K : mobiveil_hdr) (s : State) :
    (workaround_A011451 K s).rev = s.rev := by
  simp [workaround_A011451, csr_readl, csr_writel, State.read, State.emit]

/-- C5: `ls_pcie_g4_host_init` returns 0 and stores the byte `v` it reads from
`PCI_REVISION_ID` as the revision.  Its register writes are: one write to
`GPEX_ACK_REPLAY_TO` when `v = 0x10`, and none at all for every other `v`; so
a write to `GPEX_ACK_REPLAY_TO` happens if and only if `v = 0x10`. -/
theorem host_init_workaround_iff_rev_1_0 (K : mobiveil_hdr) (s : State) :
    (ls_pcie_g4_host_init K s).1 = 0 ∧
      (ls_pcie_g4_host_init K s).2.rev = s.next 8 ∧
      (ls_pcie_g4_host_init K s).2.trace = s.trace ++
        (if s.next 8 = 0x10 then
          [Event.csr_readb K.PCI_REVISION_ID 0x10,
           Event.csr_readl K.GPEX_ACK_REPLAY_TO (s.hw (s.nread + 1) % 2 ^ 32),
           Event.csr_writel
            (((s.hw (s.nread + 1) % 2 ^ 32 &&&
                not32 (K.ACK_LAT_TO_VAL_MASK <<< K.ACK_LAT_TO_VAL_SHIFT)) |||
              ((4 <<< K.ACK_LAT_TO_VAL_SHIFT) % 2 ^ 32)) % 2 ^ 32) K.GPEX_ACK_REPLAY_TO]
         else [Event.csr_readb K.PCI_REVISION_ID (s.next 8)]) ∧
      (((ls_pcie_g4_host_init K s).2.trace.drop s.trace.length).filter Event.is_write = [] ↔
        s.next 8 ≠ 0x10) ∧
      ((∃ val, Event.csr_writel val K.GPEX_ACK_REPLAY_TO ∈
          (ls_pcie_g4_host_init K s).2.trace.drop s.trace.length) ↔ s.next 8 = 0x10) := by
  by_cases hv : s.next 8 = 0x10
  · have hv2 : s.hw s.nread % 256 = 16 := hv
    simp [ls_pcie_g4_host_init, csr_readb, State.read, workaround_trace, workaround_rev,
      State.next, REV_1_0, hv2, Event.is_write]
  · have hv2 : ¬ s.hw s.nread % 256 = 16 := hv
    simp [ls_pcie_g4_host_init, csr_readb, State.read, State.next, REV_1_0, hv2,
      Event.is_write]

end LsPcieG4

namespace LsPcieG4

/-- The state after one round of the handshake poll. -/
theorem reinit_poll_round (K : mobiveil_hdr) (s : State) :
    (csr_readl K.PAB_ACTIVITY_STAT
        (ls_pcie_g4_pf_readl PCIE_PF_INT_STAT (usleep_range 10 15 s)).2).2 =
      { s with nread := s.nread + 2, trace := s.trace ++ poll_events K s.hw s.nread } := by
  simp [csr_readl, ls_pcie_g4_pf_readl, ioread32, usleep_range, State.read, State.emit,
    State.next, poll_events]

/-- A handshake poll whose rounds all fail runs `n + 1` rounds when entered with
`to = n`, and leaves `to = -1`. -/
theorem reinit_poll_all_fail (K : mobiveil_hdr) (n : Nat) (s : State)
    (h : ∀ i, i ≤ n → poll_fails s.hw (s.nread + 2 * i)) :
    reinit_poll K n s =
      (-1, { s with nread := s.nread + 2 * (n + 1),
                    trace := s.trace ++ poll_trace K s.hw s.nread (n + 1) }) := by
  induction n generalizing s with
  | zero =>
    have h0 : poll_fails s.hw s.nread := by simpa using h 0 (le_refl 0)
    have hc : ((ls_pcie_g4_pf_readl PCIE_PF_INT_STAT (usleep_range 10 15 s)).1 &&&
          (1 <<< PF_INT_STAT_PABRST) = 0 ∨
        (csr_readl K.PAB_ACTIVITY_STAT
          (ls_pcie_g4_pf_readl PCIE_PF_INT_STAT (usleep_range 10 15 s)).2).1 ≠ 0) := by
      simpa [poll_fails, csr_readl, ls_pcie_g4_pf_readl, ioread32, usleep_range, State.read,
        State.emit, State.next] using h0
    unfold reinit_poll
    simp only [if_pos hc, reinit_poll_round, poll_trace, List.append_nil]
  | succ n ih =>
    have h0 : poll_fails s.hw s.nread := by simpa using h 0 (Nat.zero_le _)
    have hc : ((ls_pcie_g4_pf_readl PCIE_PF_INT_STAT (usleep_range 10 15 s)).1 &&&
          (1 <<< PF_INT_STAT_PABRST) = 0 ∨
        (csr_readl K.PAB_ACTIVITY_STAT
          (ls_pcie_g4_pf_readl PCIE_PF_INT_STAT (usleep_range 10 15 s)).2).1 ≠ 0) := by
      simpa [poll_fails, csr_readl, ls_pcie_g4_pf_readl, ioread32, usleep_range, State.read,
        State.emit, State.next] using h0
    unfold reinit_poll
    simp only [if_pos hc, reinit_poll_round]
    rw [ih]
    · simp only [poll_trace, List.append_assoc]
      congr 2
      omega
    · intro i hi
      have := h (i + 1) (by omega)
      have e : s.nread + 2 * (i + 1) = s.nread + 2 + 2 * i := by omega
      rw [e] at this
      exact this

theorem count_usleep_poll_trace (K : mobiveil_hdr) (hw : Nat → Nat) (n c : Nat) :
    List.count (Event.usleep_range 10 15) (poll_trace K hw n c) = c := by
  induction c generalizing n with
  | zero => simp [poll_trace]
  | succ c ih => simp [poll_trace, poll_events, List.count_cons, ih]

theorem count_dev_err_poll_trace (K : mobiveil_hdr) (hw : Nat → Nat) (n c : Nat) (m : LogMsg) :
    List.count (Event.dev_err m) (poll_trace K hw n c) = 0 := by
  induction c generalizing n with
  | zero => simp [poll_trace]
  | succ c ih => simp [poll_trace, poll_events, List.count_cons, ih]

theorem filter_write_poll_trace (K : mobiveil_hdr) (hw : Nat → Nat) (n c : Nat) :
    (poll_trace K hw n c).filter Event.is_write = [] := by
  induction c generalizing n with
  | zero => simp [poll_trace]
  | succ c ih => simp [poll_trace, poll_events, Event.is_write, ih]

theorem length_poll_trace (K : mobiveil_hdr) (hw : Nat → Nat) (n c : Nat) :
    (poll_trace K hw n c).length = 3 * c := by
  induction c generalizing n with
  | zero => simp [poll_trace]
  | succ c ih => simp [poll_trace, poll_events, ih]; omega

end LsPcieG4

namespace LsPcieG4

/-- The run of `ls_pcie_g4_reinit_hw` when the first 101 rounds of the poll all
fail: 101 rounds, then the timeout message, and nothing else. -/
theorem reinit_hw_all_fail (K : mobiveil_hdr) (hi : Bool → State → State) (s : State)
    (h : ∀ i, i < 101 → poll_fails s.hw (s.nread + 2 * i)) :
    ls_pcie_g4_reinit_hw K hi s =
      { s with nread := s.nread + 202,
               trace := s.trace ++ poll_trace K s.hw s.nread 101 ++
                 [Event.dev_err LogMsg.poll_pabrst_pabact_timeout] } := by
  unfold ls_pcie_g4_reinit_hw
  rw [reinit_poll_all_fail K 100 s (fun i hi => h i (by omega))]
  simp [dev_err, State.emit]

theorem count_status_read_stuck (K : mobiveil_hdr) (n c : Nat) :
    List.count (Event.ioread32 (PCIE_PF_OFF + PCIE_PF_INT_STAT) 0) (poll_trace K hw_stuck n c)
      = c := by
  induction c generalizing n with
  | zero => simp [poll_trace]
  | succ c ih => simp [poll_trace, poll_events, hw_stuck, List.count_cons, ih]

theorem count_activity_read_stuck (K : mobiveil_hdr) (n c : Nat) :
    List.count (Event.csr_readl K.PAB_ACTIVITY_STAT 0) (poll_trace K hw_stuck n c) = c := by
  induction c generalizing n with
  | zero => simp [poll_trace]
  | succ c ih => simp [poll_trace, poll_events, hw_stuck, List.count_cons, ih]

/-- C7, as stated, fails: on hardware where every round of the poll fails, the
status pair is read 101 times, not 100, before the timeout is logged. -/
theorem reinit_hw_stuck_polls_counterexample :
    (∀ n, poll_fails hw_stuck n) ∧
      List.count (Event.ioread32 (PCIE_PF_OFF + PCIE_PF_INT_STAT) 0)
        (ls_pcie_g4_reinit_hw linux_hdr host_init_quiet (boot hw_stuck)).trace = 101 ∧
      List.count (Event.csr_readl linux_hdr.PAB_ACTIVITY_STAT 0)
        (ls_pcie_g4_reinit_hw linux_hdr host_init_quiet (boot hw_stuck)).trace = 101 ∧
      List.count (Event.dev_err LogMsg.poll_pabrst_pabact_timeout)
        (ls_pcie_g4_reinit_hw linux_hdr host_init_quiet (boot hw_stuck)).trace = 1 := by
  have hf : ∀ n, poll_fails hw_stuck n := fun n => Or.inl (by simp [hw_stuck])
  rw [reinit_hw_all_fail linux_hdr host_init_quiet (boot hw_stuck) (fun i _ => hf _)]
  refine ⟨hf, ?_, ?_, ?_⟩
  · simp [boot, List.count_append, count_status_read_stuck, List.count_cons]
  · simp [boot, List.count_append, count_activity_read_stuck, List.count_cons]
  · simp [boot, List.count_append, count_dev_err_poll_trace, List.count_cons]

/-- C7, amended: when each of the first 101 rounds of the handshake poll fails
(the status read has bit 31 clear or the activity read is non-zero),
`ls_pcie_g4_reinit_hw` ends after exactly 101 rounds (101 delays, 101 reads of
the status pair), logs the timeout exactly once and returns, having written
no register and without calling `mobiveil_host_init`. -/
theorem reinit_hw_timeout_after_101_polls (K : mobiveil_hdr) (hi : Bool → State → State)
    (s : State) (h : ∀ i, i < 101 → poll_fails s.hw (s.nread + 2 * i)) :
    ls_pcie_g4_reinit_hw K hi s =
        { s with nread := s.nread + 202,
                 trace := s.trace ++ poll_trace K s.hw s.nread 101 ++
                   [Event.dev_err LogMsg.poll_pabrst_pabact_timeout] } ∧
      (poll_trace K s.hw s.nread 101).length = 3 * 101 ∧
      List.count (Event.usleep_range 10 15) (poll_trace K s.hw s.nread 101) = 101 ∧
      List.count (Event.dev_err LogMsg.poll_pabrst_pabact_timeout)
        (poll_trace K s.hw s.nread 101 ++ [Event.dev_err LogMsg.poll_pabrst_pabact_timeout])
          = 1 ∧
      (poll_trace K s.hw s.nread 101 ++
        [Event.dev_err LogMsg.poll_pabrst_pabact_timeout]).filter Event.is_write = [] := by
  refine ⟨reinit_hw_all_fail K hi s h, length_poll_trace K s.hw s.nread 101,
    count_usleep_poll_trace K s.hw s.nread 101, ?_, ?_⟩
  · simp [List.count_append, count_dev_err_poll_trace, List.count_cons]
  · simp [filter_write_poll_trace, Event.is_write]

/-- Witness of the amended C7 on hardware whose registers all read 0. -/
theorem reinit_hw_timeout_after_101_polls_witness :
    (∀ i, i < 101 → poll_fails hw_stuck ((boot hw_stuck).nread + 2 * i)) ∧
      ls_pcie_g4_reinit_hw linux_hdr host_init_quiet (boot hw_stuck) =
        { boot hw_stuck with
            nread := (boot hw_stuck).nread + 202,
            trace := (boot hw_stuck).trace ++ poll_trace linux_hdr hw_stuck 0 101 ++
              [Event.dev_err LogMsg.poll_pabrst_pabact_timeout] } :=
  ⟨by decide,
   (reinit_hw_timeout_after_101_polls linux_hdr host_init_quiet (boot hw_stuck)
      (by decide)).1⟩

/-- C8: `ls_pcie_g4_read_other_conf` performs the generic config read exactly
once.  When the stored revision is `0x10` and `where` is `PCI_VENDOR_ID`, its
events are: write 0 to `PCIE_LUT_GCR`, the generic read, write 1 to
`PCIE_LUT_GCR`, in this order; in every other case the generic read is its
only event and no register is written.  The return code and the value are
those the generic read produced at the point where it was called. -/
theorem read_other_conf_brackets_vendor_id (K : mobiveil_hdr) (gen : ConfigOracle)
    (devfn : Nat) (where_ size : Int) (val : Nat) (s : State) :
    (ls_pcie_g4_read_other_conf K gen devfn where_ size val s).2.trace = s.trace ++
        (if s.rev = 0x10 ∧ where_ = K.PCI_VENDOR_ID then
          [Event.iowrite32 0 (PCIE_LUT_OFF + PCIE_LUT_GCR),
           Event.pci_generic_config_read devfn where_ size,
           Event.iowrite32 1 (PCIE_LUT_OFF + PCIE_LUT_GCR)]
         else [Event.pci_generic_config_read devfn where_ size]) ∧
      ((ls_pcie_g4_read_other_conf K gen devfn where_ size val s).2.trace.drop
          s.trace.length).filter Event.is_write =
        (if s.rev = 0x10 ∧ where_ = K.PCI_VENDOR_ID then
          [Event.iowrite32 0 (PCIE_LUT_OFF + PCIE_LUT_GCR),
           Event.iowrite32 1 (PCIE_LUT_OFF + PCIE_LUT_GCR)]
         else []) ∧
      (ls_pcie_g4_read_other_conf K gen devfn where_ size val s).1 =
        (pci_generic_config_read gen devfn where_ size val
          (if s.rev = 0x10 ∧ where_ = K.PCI_VENDOR_ID then
            ls_pcie_g4_lut_writel PCIE_LUT_GCR 0 s else s)).1 := by
  by_cases hc : s.rev = 16 ∧ where_ = K.PCI_VENDOR_ID
  · obtain ⟨hr, hw⟩ := hc
    simp [ls_pcie_g4_read_other_conf, pci_generic_config_read, ls_pcie_g4_lut_writel,
      iowrite32, State.emit, REV_1_0, PCIE_LUT_GCR_RRE, hr, hw, Event.is_write]
  · have hc2 : ¬ (s.rev = REV_1_0 ∧ where_ = K.PCI_VENDOR_ID) := hc
    unfold ls_pcie_g4_read_other_conf
    simp only [if_neg hc2]
    have hc3 : ¬ (((pci_generic_config_read gen devfn where_ size val s).2).rev = REV_1_0 ∧
        where_ = K.PCI_VENDOR_ID) := hc
    simp only [if_neg hc3]
    simp [pci_generic_config_read, State.emit, hc, Event.is_write]

end LsPcieG4

namespace LsPcieG4

/-- C11, as stated, fails: with the msi-parent property present, both
allocations successful and `mobiveil_pcie_host_probe` returning 0, probe still
returns `-ENODEV` when the header type register reads 0 instead of the bridge
type. -/
theorem probe_not_bridge_counterexample :
    env_ok.msi_parent_found = true ∧ env_ok.pcie_alloc_ok = true ∧
      env_ok.mv_pci_alloc_ok = true ∧
      (env_ok.mobiveil_pcie_host_probe { boot hw_endpoint with rev := 0, irq := 0 }).1 = 0 ∧
      (ls_pcie_g4_probe linux_regs env_ok (boot hw_endpoint)).1 = -linux_regs.ENODEV ∧
      (ls_pcie_g4_probe linux_regs env_ok (boot hw_endpoint)).1 ≠ 0 := by
  decide

/-- C11, amended: the return value of `ls_pcie_g4_probe` is `-EINVAL` when the
msi-parent property is missing, `-ENOMEM` when an allocation fails, the return
code of `mobiveil_pcie_host_probe` when that is not 0, `-ENODEV` when the byte
read from `PCI_HEADER_TYPE`, masked with `0x7f`, is not
`PCI_HEADER_TYPE_BRIDGE`, and 0 in every other case. -/
theorem probe_return_value (R : pci_regs_hdr) (E : ProbeEnv) (s : State) :
    (ls_pcie_g4_probe R E s).1 =
      if E.msi_parent_found = false then -R.EINVAL
      else if E.pcie_alloc_ok = false ∨ E.mv_pci_alloc_ok = false then -R.ENOMEM
      else if (E.mobiveil_pcie_host_probe { s with rev := 0, irq := 0 }).1 ≠ 0 then
        (E.mobiveil_pcie_host_probe { s with rev := 0, irq := 0 }).1
      else if (E.mobiveil_pcie_host_probe { s with rev := 0, irq := 0 }).2.next 8 &&& 0x7f
          = R.PCI_HEADER_TYPE_BRIDGE then 0
      else -R.ENODEV := by
  unfold ls_pcie_g4_probe
  cases h1 : E.msi_parent_found
  · simp
  · cases h2 : E.pcie_alloc_ok
    · simp
    · cases h3 : E.mv_pci_alloc_ok
      · simp
      · by_cases h4 : (E.mobiveil_pcie_host_probe { s with rev := 0, irq := 0 }).1 = 0
        · by_cases h5 : (E.mobiveil_pcie_host_probe { s with rev := 0, irq := 0 }).2.next 8
              &&& 0x7f = R.PCI_HEADER_TYPE_BRIDGE
          · simp [h4, ls_pcie_g4_is_bridge, csr_readb, State.read, h5]
          · simp [h4, ls_pcie_g4_is_bridge, csr_readb, State.read, h5]
        · simp [h4]

end LsPcieG4

namespace LsPcieG4

end LsPcieG4

namespace LsPcieG4

/-- The events of `ls_pcie_g4_handler` for a non-zero status `v`: the read, the
scheduling of the work when `v & PAB_INTP_RESET` is set, the write-back. -/
theorem handler_events_nonzero (K : mobiveil_hdr) (s : State) (hv : s.next 32 ≠ 0) :
    (ls_pcie_g4_handler K s).2.trace.drop s.trace.length =
      [Event.csr_readl K.PAB_INTP_AMBA_MISC_STAT (s.next 32)] ++
        (if s.next 32 &&& K.PAB_INTP_RESET ≠ 0 then [Event.schedule_delayed_work 1] else []) ++
        [Event.csr_writel (s.next 32) K.PAB_INTP_AMBA_MISC_STAT] := by
  have hm : s.next 32 % 4294967296 = s.next 32 := next_mod s 32
  by_cases hr : s.next 32 &&& K.PAB_INTP_RESET = 0
  · simp [ls_pcie_g4_handler, csr_readl, csr_writel, State.read, State.emit, hv, hr, hm]
  · simp [ls_pcie_g4_handler, csr_readl, csr_writel, schedule_delayed_work, State.read,
      State.emit, hv, hr, hm]

/-- C14: for every non-zero value `v` read from `PAB_INTP_AMBA_MISC_STAT`, the
handler schedules the delayed work, with the delay `msecs_to_jiffies(1)`, once
if `v & PAB_INTP_RESET` is non-zero and not at all otherwise, and with no
other delay.  Its only register write is `v` back to `PAB_INTP_AMBA_MISC_STAT`
through `csr_writel`: it performs no `csr_writew` (the access the reset work
uses for `PCI_BRIDGE_CONTROL`) and no `iowrite32` (the access used for
`PCIE_PF_DBG`). -/
theorem handler_defers_reset (K : mobiveil_hdr) (s : State) (hv : s.next 32 ≠ 0) :
    List.count (Event.schedule_delayed_work 1)
        ((ls_pcie_g4_handler K s).2.trace.drop s.trace.length) =
        (if s.next 32 &&& K.PAB_INTP_RESET ≠ 0 then 1 else 0) ∧
      (∀ m, Event.schedule_delayed_work m ∈
          (ls_pcie_g4_handler K s).2.trace.drop s.trace.length →
        m = 1 ∧ s.next 32 &&& K.PAB_INTP_RESET ≠ 0) ∧
      ((ls_pcie_g4_handler K s).2.trace.drop s.trace.length).filter Event.is_write =
        [Event.csr_writel (s.next 32) K.PAB_INTP_AMBA_MISC_STAT] ∧
      (∀ val off, Event.csr_writew val off ∉
        (ls_pcie_g4_handler K s).2.trace.drop s.trace.length) ∧
      (∀ val addr, Event.iowrite32 val addr ∉
        (ls_pcie_g4_handler K s).2.trace.drop s.trace.length) := by
  rw [handler_events_nonzero K s hv]
  by_cases hr : s.next 32 &&& K.PAB_INTP_RESET = 0
  · simp [hr, Event.is_write]
  · simp [hr, Event.is_write]

/-- Witness of C14 on a status of 6 (reset bit set). -/
theorem handler_defers_reset_witness :
    (boot (fun _ => 6)).next 32 ≠ 0 ∧
      List.count (Event.schedule_delayed_work 1)
        ((ls_pcie_g4_handler linux_hdr (boot (fun _ => 6))).2.trace.drop
          (boot (fun _ => 6)).trace.length) =
        (if (boot (fun _ => 6)).next 32 &&& linux_hdr.PAB_INTP_RESET ≠ 0 then 1 else 0) :=
  ⟨by decide, (handler_defers_reset linux_hdr (boot (fun _ => 6)) (by decide)).1⟩

theorem link_up_rev (s : State) : (ls_pcie_g4_link_up s).2.rev = s.rev := by
  simp only [ls_pcie_g4_link_up, ls_pcie_g4_pf_readl, ioread32, State.read]
  split <;> rfl

theorem handler_rev (K : mobiveil_hdr) (s : State) : (ls_pcie_g4_handler K s).2.rev = s.rev := by
  simp only [ls_pcie_g4_handler, csr_readl, csr_writel, schedule_delayed_work, State.read,
    State.emit]
  split
  · rfl
  · split <;> rfl

theorem read_other_conf_rev (K : mobiveil_hdr) (gen : ConfigOracle) (devfn : Nat)
    (where_ size : Int) (val : Nat) (s : State) :
    (ls_pcie_g4_read_other_conf K gen devfn where_ size val s).2.rev = s.rev := by
  simp only [ls_pcie_g4_read_other_conf, pci_generic_config_read, ls_pcie_g4_lut_writel,
    iowrite32, State.emit]
  split <;> rfl

theorem reinit_poll_rev (K : mobiveil_hdr) (n : Nat) (s : State) :
    (reinit_poll K n s).2.rev = s.rev := by
  induction n generalizing s with
  | zero =>
    unfold reinit_poll
    simp only [reinit_poll_round]
    split <;> rfl
  | succ n ih =>
    unfold reinit_poll
    simp only [reinit_poll_round]
    split
    · rw [ih]
    · rfl

theorem link_training_poll_rev (n : Nat) (s : State) :
    (link_training_poll n s).2.rev = s.rev := by
  induction n generalizing s with
  | zero =>
    unfold link_training_poll
    dsimp only
    split <;> exact link_up_rev s
  | succ n ih =>
    unfold link_training_poll
    dsimp only
    split
    · rw [ih]
      simp [usleep_range, State.emit, link_up_rev]
    · exact link_up_rev s

theorem clear_pex_reset_rev (s : State) : (clear_pex_reset s).rev = s.rev := by
  simp [clear_pex_reset, ls_pcie_g4_pf_readl, ls_pcie_g4_pf_writel, ioread32, iowrite32,
    State.read, State.emit]

theorem reinit_hw_rev (K : mobiveil_hdr) (hi : Bool → State → State)
    (hrev : ∀ b t, (hi b t).rev = t.rev) (s : State) :
    (ls_pcie_g4_reinit_hw K hi s).rev = s.rev := by
  unfold ls_pcie_g4_reinit_hw
  dsimp only
  split
  · simp [dev_err, State.emit, reinit_poll_rev]
  · unfold reinit_hw_proceed
    dsimp only
    split
    · simp [dev_err, State.emit, link_training_poll_rev, hrev, clear_pex_reset_rev,
        reinit_poll_rev]
    · simp [link_training_poll_rev, hrev, clear_pex_reset_rev, reinit_poll_rev]

theorem reset_rev (K : mobiveil_hdr) (R : pci_regs_hdr) (hi : Bool → State → State)
    (hrev : ∀ b t, (hi b t).rev = t.rev) (s : State) :
    (ls_pcie_g4_reset K R hi s).rev = s.rev := by
  unfold ls_pcie_g4_reset
  rw [reinit_hw_rev K hi hrev]
  simp [csr_writew, csr_readw, State.read, State.emit]

end LsPcieG4

namespace LsPcieG4

theorem host_init_rev (K : mobiveil_hdr) (s : State) :
    (ls_pcie_g4_host_init K s).2.rev = s.next 8 := by
  simp only [ls_pcie_g4_host_init, csr_readb, State.read, State.next]
  split
  · rw [workaround_rev]; simp
  · simp

/-- C15, as stated, fails: after host init has stored revision `0x10`, a reset
whose `mobiveil_host_init` runs the `host_init` callback again stores `0x20`
when the revision register then reads `0x20`; likewise a second direct run of
`ls_pcie_g4_host_init` stores whatever the register reads at that time. -/
theorem rev_rewritten_by_host_init_counterexample :
    (ls_pcie_g4_host_init linux_hdr (boot hw_rev_changes)).2.rev = 0x10 ∧
      (ls_pcie_g4_reset linux_hdr linux_regs (host_init_callback linux_hdr)
        (ls_pcie_g4_host_init linux_hdr (boot hw_rev_changes)).2).rev = 0x20 ∧
      (ls_pcie_g4_host_init linux_hdr
        (ls_pcie_g4_host_init linux_hdr (boot hw_rev_changes)).2).2.rev = 0x2d := by
  decide

/-- C15, amended: link-up detection, the interrupt handler, config reads, and
the reset work apart from what `mobiveil_host_init` does inside it, leave the
`rev` field as it is, whatever the registers read.  A run of
`ls_pcie_g4_host_init`, the first or a later one, stores the byte it reads from
`PCI_REVISION_ID`; `rev` is the same afterwards exactly when that byte equals
the stored value. -/
theorem rev_kept_except_by_host_init (K : mobiveil_hdr) (R : pci_regs_hdr)
    (gen : ConfigOracle) (hi : Bool → State → State) (devfn : Nat) (where_ size : Int)
    (val : Nat) (s : State) :
    (ls_pcie_g4_link_up s).2.rev = s.rev ∧
      (ls_pcie_g4_handler K s).2.rev = s.rev ∧
      (ls_pcie_g4_read_other_conf K gen devfn where_ size val s).2.rev = s.rev ∧
      ((∀ b t, (hi b t).rev = t.rev) → (ls_pcie_g4_reset K R hi s).rev = s.rev) ∧
      (ls_pcie_g4_host_init K s).2.rev = s.next 8 ∧
      ((ls_pcie_g4_host_init K s).2.rev = s.rev ↔ s.next 8 = s.rev) := by
  refine ⟨link_up_rev s, handler_rev K s, read_other_conf_rev K gen devfn where_ size val s,
    fun hrev => reset_rev K R hi hrev s, host_init_rev K s, ?_⟩
  rw [host_init_rev]

/-- The amended C15 evaluated on a reset that starts from revision `0x10`, with
a `mobiveil_host_init` that leaves the driver object alone. -/
theorem rev_kept_except_by_host_init_witness :
    (ls_pcie_g4_reset linux_hdr linux_regs host_init_quiet
        (ls_pcie_g4_host_init linux_hdr (boot hw_rev_changes)).2).rev =
      (ls_pcie_g4_host_init linux_hdr (boot hw_rev_changes)).2.rev :=
  (rev_kept_except_by_host_init linux_hdr linux_regs gen_ok host_init_quiet 0 0 4 0
    (ls_pcie_g4_host_init linux_hdr (boot hw_rev_changes)).2).2.2.2.1 (fun _ _ => rfl)

end LsPcieG4

namespace FslMcMsi

theorem creation_attempts_append (l1 l2 : List InitEvent) :
    creation_attempts (l1 ++ l2) = creation_attempts l1 ++ creation_attempts l2 := by
  induction l1 with
  | nil => rfl
  | cons e l1 ih => cases e <;> simp [creation_attempts, ih]

/-- The loop attempts a creation for the eligible nodes of its input, in order,
whatever the outcome of each creation. -/
theorem creation_attempts_loop (create : CreateOracle) (nodes : List device_node)
    (log : List InitEvent) :
    creation_attempts (its_fsl_mc_of_msi_init_loop create nodes log) =
      creation_attempts log ++ nodes.filter eligible := by
  induction nodes generalizing log with
  | nil => simp [its_fsl_mc_of_msi_init_loop]
  | cons np rest ih =>
    unfold its_fsl_mc_of_msi_init_loop
    cases ha : np.available
    · simp [ih, eligible, ha]
    · cases hm : np.msi_controller
      · simp [ih, eligible, ha, hm]
      · cases hp : np.parent with
        | none => simp [ih, eligible, ha, hm, hp, creation_attempts_append, creation_attempts]
        | some parent =>
          cases hd : parent.msi_domain_info
          · simp [ih, eligible, ha, hm, hp, hd, creation_attempts_append, creation_attempts]
          · cases hc : create log np parent <;>
              simp [ih, eligible, ha, hm, hp, hd, hc, creation_attempts_append,
                creation_attempts]

/-- C12: for every list of nodes matching "arm,gic-v3-its" and whatever the
outcome of each domain creation, `its_fsl_mc_of_msi_init` returns 0 and
attempts a creation for exactly the nodes that are available, carry
`msi-controller` and have a parent domain with MSI domain info, in list order.
A node that is skipped (for instance because its parent domain is absent)
changes nothing for the others: with it taken out of the list the same
creations are attempted. -/
theorem of_msi_init_attempts_eligible (create : CreateOracle) (nodes : List device_node) :
    (its_fsl_mc_of_msi_init create nodes).1 = 0 ∧
      creation_attempts (its_fsl_mc_of_msi_init create nodes).2 = nodes.filter eligible ∧
      (∀ np, np ∈ creation_attempts (its_fsl_mc_of_msi_init create nodes).2 ↔
        np ∈ nodes ∧ np.available = true ∧ np.msi_controller = true ∧
          ∃ parent, np.parent = some parent ∧ parent.msi_domain_info = true) ∧
      ∀ (l1 l2 : List device_node) (np : device_node), nodes = l1 ++ np :: l2 →
        eligible np = false →
        creation_attempts (its_fsl_mc_of_msi_init create nodes).2 =
          creation_attempts (its_fsl_mc_of_msi_init create (l1 ++ l2)).2 := by
  have hmain : ∀ l, creation_attempts (its_fsl_mc_of_msi_init create l).2 = l.filter eligible := by
    intro l
    simp [its_fsl_mc_of_msi_init, creation_attempts_loop, creation_attempts]
  refine ⟨rfl, hmain nodes, ?_, ?_⟩
  · intro np
    rw [hmain, List.mem_filter]
    constructor
    · rintro ⟨hmem, hel⟩
      refine ⟨hmem, ?_⟩
      cases hp : np.parent with
      | none => simp [eligible, hp] at hel
      | some parent =>
        simp [eligible, hp] at hel
        exact ⟨hel.1.1, hel.1.2, parent, rfl, hel.2⟩
    · rintro ⟨hmem, ha, hm, parent, hp, hd⟩
      exact ⟨hmem, by simp [eligible, ha, hm, hp, hd]⟩
  · intro l1 l2 np hn hel
    rw [hmain, hmain, hn]
    simp [List.filter_append, List.filter_cons, hel]

end FslMcMsi

namespace Ocelot

open ocelot_target

theorem ocelot_reg_count : ocelot_reg_values.length = 360 := by
  decide!

/-- The one-pass check succeeds on the values of `enum ocelot_reg`. -/
theorem ocelot_reg_checked : check_decode [] ocelot_reg_values = true := by
  decide!

theorem count_target_append (t : Nat) (l1 l2 : List Nat) :
    count_target t (l1 ++ l2) = count_target t l1 + count_target t l2 := by
  induction l1 with
  | nil => simp [count_target]
  | cons w l1 ih =>
    rw [List.cons_append]
    by_cases hw : target_of w = t
    · rw [count_target, count_target, if_pos hw, if_pos hw, ih]; omega
    · rw [count_target, count_target, if_neg hw, if_neg hw, ih]

theorem count_target_reverse (t : Nat) (l : List Nat) :
    count_target t l.reverse = count_target t l := by
  induction l with
  | nil => rfl
  | cons w l ih =>
    rw [List.reverse_cons, count_target_append, ih]
    by_cases hw : target_of w = t
    · simp [count_target, hw]
    · simp [count_target, hw]

theorem count_target_eq_zero (t : Nat) (l : List Nat) (h : ∀ w ∈ l, target_of w ≠ t) :
    count_target t l = 0 := by
  induction l with
  | nil => rfl
  | cons w l ih =>
    have hw : target_of w ≠ t := h w (List.mem_cons_self w l)
    simp only [count_target, if_neg hw]
    exact ih (fun x hx => h x (List.mem_cons_of_mem w hx))

/-- Soundness of the one-pass check: when the latest value seen has as table
index the number of earlier values of its target, and the check succeeds on
the remaining values, every remaining value decodes to a target between 1 and
9 and has as table index the number of values of its target before it. -/
theorem check_decode_sound (vs : List Nat) :
    ∀ seen : List Nat,
      (∀ u rest, seen = u :: rest → index_of u = count_target (target_of u) rest) →
      check_decode seen vs = true →
      ∀ a v b, vs = a ++ v :: b →
        1 ≤ target_of v ∧ target_of v ≤ 9 ∧
          index_of v = count_target (target_of v) (a.reverse ++ seen) := by
  induction vs with
  | nil =>
    intro seen _ _ a v b h
    simp at h
  | cons x vs ih =>
    intro seen hhead hchk a v b hdec
    unfold check_decode at hchk
    simp only [Bool.and_eq_true, decide_eq_true_eq] at hchk
    obtain ⟨⟨hrange, hstep⟩, hrest⟩ := hchk
    have hx : index_of x = count_target (target_of x) seen := by
      cases seen with
      | nil => simpa [count_target] using hstep
      | cons u rest =>
        simp only [Bool.or_eq_true, decide_eq_true_eq] at hstep
        rcases hstep with ⟨ht, hi⟩ | ⟨hi, hc⟩
        · have hu := hhead u rest rfl
          rw [hi, hu, ht]
          simp [count_target]
        · rw [hi, hc]
    cases a with
    | nil =>
      simp only [List.nil_append, List.cons.injEq] at hdec
      obtain ⟨rfl, _⟩ := hdec
      exact ⟨hrange.1, hrange.2, by simpa using hx⟩
    | cons y a =>
      simp only [List.cons_append, List.cons.injEq] at hdec
      obtain ⟨rfl, hvs⟩ := hdec
      have hhead2 : ∀ u rest, x :: seen = u :: rest →
          index_of u = count_target (target_of u) rest := by
        intro u rest h
        simp only [List.cons.injEq] at h
        obtain ⟨rfl, rfl⟩ := h
        exact hx
      have := ih (x :: seen) hhead2 hrest a v b hvs
      simpa [List.reverse_cons, List.append_assoc] using this

/-- Every value of `enum ocelot_reg`, with the values `pre` declared before it:
its target lies between 1 and 9 and its table index is the number of values
in `pre` of its target. -/
theorem ocelot_reg_position (pre : List Nat) (v : Nat) (post : List Nat)
    (h : ocelot_reg_values = pre ++ v :: post) :
    1 ≤ target_of v ∧ target_of v ≤ 9 ∧ index_of v = count_target (target_of v) pre := by
  have := check_decode_sound ocelot_reg_values [] (by intro u rest h; simp at h)
    ocelot_reg_checked pre v post h
  simpa [count_target_reverse] using this

theorem target_unique (n : Nat) (h1 : 1 ≤ n) (h9 : n ≤ 9) :
    ∃! t : ocelot_target, t.val = n ∧ t ≠ ocelot_target.TARGET_MAX := by
  interval_cases n
  · exact ⟨ ANA, by decide, fun t ht => by cases t <;> simp_all [ocelot_target.val]⟩
  · exact ⟨ PTP, by decide, fun t ht => by cases t <;> simp_all [ocelot_target.val]⟩
  · exact ⟨ QS, by decide, fun t ht => by cases t <;> simp_all [ocelot_target.val]⟩
  · exact ⟨ QSYS, by decide, fun t ht => by cases t <;> simp_all [ocelot_target.val]⟩
  · exact ⟨ REW, by decide, fun t ht => by cases t <;> simp_all [ocelot_target.val]⟩
  · exact ⟨ SYS, by decide, fun t ht => by cases t <;> simp_all [ocelot_target.val]⟩
  · exact ⟨ S2, by decide, fun t ht => by cases t <;> simp_all [ocelot_target.val]⟩
  · exact ⟨ GCB, by decide, fun t ht => by cases t <;> simp_all [ocelot_target.val]⟩
  · exact ⟨ HSIO, by decide, fun t ht => by cases t <;> simp_all [ocelot_target.val]⟩

/-- C16: for every symbol of `enum ocelot_reg`, with value `v` and with `pre`
the values of the symbols declared before it: `v` shifted right by
`TARGET_OFFSET` is the value of exactly one member of `enum ocelot_target`,
which lies in `ANA..HSIO` and so below `TARGET_MAX`; `v & REG_MASK` is the
number of symbols of the same target declared before it (its zero-based
position in the target), hence 0 for the first symbol of a target; and no
symbol of the same target declared before it has the same `v & REG_MASK`. -/
theorem ocelot_reg_decodes (pre : List Nat) (v : Nat) (post : List Nat)
    (h : ocelot_reg_values = pre ++ v :: post) :
    (∃! t : ocelot_target, t.val = target_of v ∧ t ≠ ocelot_target.TARGET_MAX) ∧
      ocelot_target.ANA.val ≤ target_of v ∧
      target_of v ≤ ocelot_target.HSIO.val ∧
      target_of v < ocelot_target.TARGET_MAX.val ∧
      index_of v = count_target (target_of v) pre ∧
      ((∀ w ∈ pre, target_of w ≠ target_of v) → index_of v = 0) ∧
      ∀ w ∈ pre, target_of w = target_of v → index_of w ≠ index_of v := by
  obtain ⟨h1, h9, hpos⟩ := ocelot_reg_position pre v post h
  refine ⟨target_unique _ h1 h9, h1, h9, ?_, hpos, ?_, ?_⟩
  · show target_of v < 10
    omega
  · intro hfirst
    rw [hpos]
    exact count_target_eq_zero _ _ hfirst
  · intro w hw ht hx
    obtain ⟨p1, p2, rfl⟩ := List.append_of_mem hw
    have hw2 := (ocelot_reg_position p1 w (p2 ++ v :: post)
      (by rw [h]; simp [List.append_assoc])).2.2
    rw [hpos, hw2, ht, count_target_append] at hx
    simp only [count_target, if_pos ht] at hx
    omega

/-- Witness of C16 at the first symbol, `ANA_ADVLEARN`, with value `1 << 24`. -/
theorem ocelot_reg_decodes_witness :
    index_of 0x1000000 = count_target (target_of 0x1000000) [] :=
  (ocelot_reg_decodes [] 0x1000000 ocelot_reg_values.tail (by decide!)).2.2.2.2.1

end Ocelot
